import Mathlib

/-!
Verification development for the Austin House Hunter
"Listing Ranking & Preference Learning Engine".

Shallow embedding of `src/main.py` (relevance scoring, shortlist
selection) and `src/learning.py` (preference derivation, preference
boost, feedback parsing and application).  Python floats are modelled
as exact rationals (`ℚ`); Python `dict`s as insertion-ordered
association lists; optional / possibly-missing fields as `Option`.
Geo resolution (`location.get_nearby_neighborhoods`) is an external
collaborator of the engine and is passed in as a function parameter.
-/

namespace HouseHunter

/-- Python truthiness of an optional number (`None` and `0` are falsy). -/
def qTruthy : Option ℚ → Bool
  | some q => q ≠ 0
  | none => false

/-- Python `x or d` for an optional number `x`: yields `d` when `x` is
`None` or `0`, else the value of `x`. -/
def pyOr (x : Option ℚ) (d : ℚ) : ℚ :=
  match x with
  | some q => if q = 0 then d else q
  | none => d

/-- Python truthiness of an optional string (`None` and `""` are falsy). -/
def strTruthy : Option String → Bool
  | some s => s ≠ ""
  | none => false

/-- A listing record (`dict` in the source); every field optional,
mirroring `listing.get(...)` access. -/
structure Listing where
  zpid : Option String := none
  price : Option ℚ := none
  sqft : Option ℚ := none
  beds : Option ℚ := none
  baths : Option ℚ := none
  days_on_market : Option ℚ := none
  distance : Option ℚ := none
  neighborhood : Option String := none
  has_hoa : Option Bool := none
  latitude : Option ℚ := none
  longitude : Option ℚ := none
deriving DecidableEq, Repr

/-- The slice of the configuration record used by
`calculate_relevance_score`. -/
structure Config where
  min_price : Option ℚ := none
  max_price : Option ℚ := none
deriving DecidableEq, Repr

/-- The preference profile (`preferences` dict in `learning.py`).
`neighborhood_weights` is an insertion-ordered association list,
modelling the Python dict. -/
structure Preferences where
  preferred_neighborhoods : List String := []
  neighborhood_weights : List (String × ℚ) := []
  ideal_price : Option ℚ := none
  ideal_sqft : Option ℚ := none
  ideal_beds : Option ℚ := none
  ideal_baths : Option ℚ := none
  hoa_preference : Option Bool := none
  price_history : List ℚ := []
  sqft_history : List ℚ := []
  beds_history : List ℚ := []
  baths_history : List ℚ := []
deriving DecidableEq, Repr

/-- `learning.get_default_preferences`. -/
def get_default_preferences : Preferences := {}

/-- Python dict `.get(key, default)` on an association list
(first binding wins, as keys are unique in a dict). -/
def dictGet (w : List (String × ℚ)) (n : String) (d : ℚ) : ℚ :=
  match List.lookup n w with
  | some v => v
  | none => d

/-- Python dict assignment `w[n] = v`: updates the binding in place if
the key exists, else appends a new binding at the end. -/
def dictSet : List (String × ℚ) → String → ℚ → List (String × ℚ)
  | [], n, v => [(n, v)]
  | (m, w) :: rest, n, v =>
    if m = n then (m, v) :: rest else (m, w) :: dictSet rest n v

/-! ### `learning.calculate_preference_boost`

The source multiplies `boost` (starting at `1.0`) by one factor per
block; each block contributes `1` when its guard is not taken, so the
function is the product of the six factor functions below, each the
direct transcription of its block. -/

/-- Neighborhood factor: `if neighborhood and prefs.get("neighborhood_weights")`,
then `boost *= weights.get(neighborhood, 1.0)`. -/
def neighborhoodFactor (listing : Listing) (prefs : Preferences) : ℚ :=
  match listing.neighborhood with
  | some n =>
    if n ≠ "" ∧ prefs.neighborhood_weights ≠ [] then
      dictGet prefs.neighborhood_weights n 1
    else 1
  | none => 1

/-- Price-proximity factor: `if price and ideal_price`, tiers on
`abs(price - ideal_price) / ideal_price`. -/
def priceFactor (listing : Listing) (prefs : Preferences) : ℚ :=
  match listing.price, prefs.ideal_price with
  | some price, some ideal =>
    if price ≠ 0 ∧ ideal ≠ 0 then
      let price_diff_pct := |price - ideal| / ideal
      if price_diff_pct < 0.1 then 1.2
      else if price_diff_pct < 0.2 then 1.1
      else if price_diff_pct > 0.5 then 0.9
      else 1
    else 1
  | _, _ => 1

/-- Sqft-proximity factor: `if sqft and ideal_sqft`, `< 0.15 → ×1.1`. -/
def sqftFactor (listing : Listing) (prefs : Preferences) : ℚ :=
  match listing.sqft, prefs.ideal_sqft with
  | some sqft, some ideal =>
    if sqft ≠ 0 ∧ ideal ≠ 0 then
      let sqft_diff_pct := |sqft - ideal| / ideal
      if sqft_diff_pct < 0.15 then 1.1 else 1
    else 1
  | _, _ => 1

/-- Beds-proximity factor: `if beds and ideal_beds`,
`abs(beds - ideal_beds) <= 0.5 → ×1.05`. -/
def bedsFactor (listing : Listing) (prefs : Preferences) : ℚ :=
  match listing.beds, prefs.ideal_beds with
  | some beds, some ideal =>
    if beds ≠ 0 ∧ ideal ≠ 0 then
      if |beds - ideal| ≤ 0.5 then 1.05 else 1
    else 1
  | _, _ => 1

/-- Baths-proximity factor, as `bedsFactor`. -/
def bathsFactor (listing : Listing) (prefs : Preferences) : ℚ :=
  match listing.baths, prefs.ideal_baths with
  | some baths, some ideal =>
    if baths ≠ 0 ∧ ideal ≠ 0 then
      if |baths - ideal| ≤ 0.5 then 1.05 else 1
    else 1
  | _, _ => 1

/-- HOA factor: `if has_hoa is not None and hoa_pref is not None`
(identity comparison: `False` is *not* treated as absent), match →
`×1.1`, mismatch → `×0.9`. -/
def hoaFactor (listing : Listing) (prefs : Preferences) : ℚ :=
  match listing.has_hoa, prefs.hoa_preference with
  | some h, some p => if h = p then 1.1 else 0.9
  | _, _ => 1

/-- The six factors of `calculate_preference_boost`, in source order. -/
def boostFactors (listing : Listing) (prefs : Preferences) : List ℚ :=
  [neighborhoodFactor listing prefs, priceFactor listing prefs,
   sqftFactor listing prefs, bedsFactor listing prefs,
   bathsFactor listing prefs, hoaFactor listing prefs]

/-- `learning.calculate_preference_boost`: `boost = 1.0`, then one
in-place multiplication per factor block.  (The `if not prefs` guard of
the source concerns an entirely empty preferences dict, which the typed
profile record cannot denote; every caller passes a full profile.) -/
def calculate_preference_boost (listing : Listing) (prefs : Preferences) : ℚ :=
  1 * neighborhoodFactor listing prefs * priceFactor listing prefs
    * sqftFactor listing prefs * bedsFactor listing prefs
    * bathsFactor listing prefs * hoaFactor listing prefs

/-! ### `main.calculate_relevance_score` -/

/-- Distance sub-score: `max(0, 100 - (distance/20)*100)` when distance
is present (`is not None`), else the default `50`. -/
def distanceScore (listing : Listing) : ℚ :=
  match listing.distance with
  | some d => max 0 (100 - (d / 20) * 100)
  | none => 50

/-- Price sub-score, with Python-truthy defaulting of the bounds
(`price or 0`, `min_price or 0`, `max_price or price*2`) and the
degenerate-bounds branch yielding `50`. -/
def priceScore (listing : Listing) (config : Config) : ℚ :=
  let price := pyOr listing.price 0
  let min_price := pyOr config.min_price 0
  let max_price := pyOr config.max_price (price * 2)
  if min_price < max_price then
    max 0 (min 100 (100 - ((price - min_price) / (max_price - min_price)) * 100))
  else 50

/-- Newness sub-score: `days_on_market or 30`, then
`max(0, 100 - (days/60)*100)`. -/
def newnessScore (listing : Listing) : ℚ :=
  let days := pyOr listing.days_on_market 30
  max 0 (100 - (days / 60) * 100)

/-- `main.calculate_relevance_score`: weighted base 40/30/30, times the
preference boost. -/
def calculate_relevance_score (listing : Listing) (config : Config)
    (preferences : Preferences) : ℚ :=
  let base_score := 0.4 * distanceScore listing + 0.3 * priceScore listing config
    + 0.3 * newnessScore listing
  base_score * calculate_preference_boost listing preferences

/-! ### `learning.update_preferences_from_favorites`

The favorites dict (`zpid -> listing`) is an insertion-ordered list of
pairs.  The collection loop appends to six independent lists; each is
built here by its own traversal of the same favorites sequence, which
yields exactly the lists the interleaved loop builds.  The external
collaborator `location.get_nearby_neighborhoods` is a parameter
`nearby lat lon radius`. -/

/-- Per-listing truthiness filter on a numeric field, as used by
`if listing.get("price"): prices.append(...)` (skips `None` and `0`). -/
def truthyField (o : Option ℚ) : Option ℚ :=
  match o with
  | some q => if q = 0 then none else some q
  | none => none

/-- The `neighborhoods` list: for each favorite with a truthy
neighborhood, the neighborhood itself followed by the nearby
neighborhoods of its coordinates (radius 2.0), the latter only when
both coordinates are truthy (`if lat and lon`). -/
def collectNeighborhoods (nearby : ℚ → ℚ → ℚ → List String)
    (favorites : List (String × Listing)) : List String :=
  favorites.foldl
    (fun acc zl =>
      match zl.2.neighborhood with
      | some n =>
        if n ≠ "" then
          acc ++ [n] ++
            (match zl.2.latitude, zl.2.longitude with
             | some la, some lo =>
               if la ≠ 0 ∧ lo ≠ 0 then nearby la lo 2 else []
             | _, _ => [])
        else acc
      | none => acc)
    []

/-- The `prices` list (and analogously `sqfts`, `beds_list`,
`baths_list`) collected over the favorites. -/
def collectField (f : Listing → Option ℚ) (favorites : List (String × Listing)) :
    List ℚ :=
  favorites.filterMap (fun zl => truthyField (f zl.2))

/-- The `hoa_values` list: `if listing.get("has_hoa") is not None`
(identity check, so `False` is collected). -/
def collectHoa (favorites : List (String × Listing)) : List Bool :=
  favorites.filterMap (fun zl => zl.2.has_hoa)

/-- `neighborhood_counts[n] = neighborhood_counts.get(n, 0) + 1`:
bump the count of `n`, appending a fresh binding when absent
(Python dict insertion order). -/
def bumpCount : List (String × ℕ) → String → List (String × ℕ)
  | [], n => [(n, 1)]
  | (m, c) :: rest, n =>
    if m = n then (m, c + 1) :: rest else (m, c) :: bumpCount rest n

/-- The `neighborhood_counts` dict built by iterating `neighborhoods`. -/
def countsOf (ns : List String) : List (String × ℕ) := ns.foldl bumpCount []

/-- `max(neighborhood_counts.values())` (on the empty dict the source
never evaluates it; `0` here). -/
def maxCount : List (String × ℕ) → ℕ
  | [] => 0
  | p :: rest => max p.2 (maxCount rest)

/-- `sorted(neighborhood_counts.items(), key=lambda x: -x[1])`:
stable sort, descending by count. -/
def sortCountsDesc (counts : List (String × ℕ)) : List (String × ℕ) :=
  List.insertionSort (fun a b => b.2 ≤ a.2) counts

/-- Python `l[-10:]`: the last (at most) ten elements. -/
def lastTen (l : List ℚ) : List ℚ := l.drop (l.length - 10)

/-- The `if neighborhood_counts:` block: weights
`1.0 + (count / max_count) * 0.5` and the top-5 preferred list. -/
def withNeighborhoodStats (ns : List String) (prefs : Preferences) : Preferences :=
  if countsOf ns ≠ [] then
    { prefs with
      neighborhood_weights := (countsOf ns).map
        (fun nc => (nc.1, 1 + ((nc.2 : ℚ) / (maxCount (countsOf ns) : ℚ)) * 0.5)),
      preferred_neighborhoods :=
        ((sortCountsDesc (countsOf ns)).take 5).map Prod.fst }
  else prefs

/-- The `if prices:` block: mean price and last-10 history. -/
def withIdealPrice (prices : List ℚ) (prefs : Preferences) : Preferences :=
  if prices ≠ [] then
    { prefs with ideal_price := some (prices.sum / (prices.length : ℚ)),
                 price_history := lastTen prices }
  else prefs

/-- The `if sqfts:` block. -/
def withIdealSqft (sqfts : List ℚ) (prefs : Preferences) : Preferences :=
  if sqfts ≠ [] then
    { prefs with ideal_sqft := some (sqfts.sum / (sqfts.length : ℚ)),
                 sqft_history := lastTen sqfts }
  else prefs

/-- The `if beds_list:` block. -/
def withIdealBeds (beds_list : List ℚ) (prefs : Preferences) : Preferences :=
  if beds_list ≠ [] then
    { prefs with ideal_beds := some (beds_list.sum / (beds_list.length : ℚ)),
                 beds_history := lastTen beds_list }
  else prefs

/-- The `if baths_list:` block. -/
def withIdealBaths (baths_list : List ℚ) (prefs : Preferences) : Preferences :=
  if baths_list ≠ [] then
    { prefs with ideal_baths := some (baths_list.sum / (baths_list.length : ℚ)),
                 baths_history := lastTen baths_list }
  else prefs

/-- The `if hoa_values:` block: the 2:1 majority rule. -/
def withHoaPref (hoa_values : List Bool) (prefs : Preferences) : Preferences :=
  let hoa_true := (hoa_values.filter (fun v => v)).length
  let hoa_false := hoa_values.length - hoa_true
  if hoa_values ≠ [] then
    if hoa_true > hoa_false * 2 then { prefs with hoa_preference := some true }
    else if hoa_false > hoa_true * 2 then { prefs with hoa_preference := some false }
    else prefs
  else prefs

/-- The profile-construction tail of
`update_preferences_from_favorites`: the source's sequence of in-place
conditional updates of the default profile. -/
def buildPrefs (neighborhoods : List String)
    (prices sqfts beds_list baths_list : List ℚ)
    (hoa_values : List Bool) : Preferences :=
  withHoaPref hoa_values (withIdealBaths baths_list (withIdealBeds beds_list
    (withIdealSqft sqfts (withIdealPrice prices
      (withNeighborhoodStats neighborhoods get_default_preferences)))))

/-- `learning.update_preferences_from_favorites`: collect the six
feature lists over the favorites, then build the profile. -/
def update_preferences_from_favorites (nearby : ℚ → ℚ → ℚ → List String)
    (favorites : List (String × Listing)) : Preferences :=
  if favorites = [] then get_default_preferences
  else
    buildPrefs (collectNeighborhoods nearby favorites)
      (collectField Listing.price favorites)
      (collectField Listing.sqft favorites)
      (collectField Listing.beds favorites)
      (collectField Listing.baths favorites)
      (collectHoa favorites)

/-! ### Shortlist selection (`main.main`, lines 276-336)

The selection operates on the scored `new_listings`; the stored
`relevance_score` (set once for every candidate, read back with
`or 0`, which is the identity on an always-present numeric value) is
abstracted as a score function `score : Listing → ℚ`, instantiated
with `calculate_relevance_score` in `selectFromRun`.  `TESTING_MODE`
is `False` in the source, so the normal-mode candidate filter applies. -/

/-- `MAX_LISTINGS` from `main.py`. -/
def MAX_LISTINGS : ℕ := 5

/-- The normal-mode `new_listings` filter: `l.get("zpid")` truthy,
zpid not favorited, zpid not dismissed. -/
def eligibleListings (favoriteZpids dismissedZpids : List String)
    (filtered : List Listing) : List Listing :=
  filtered.filter (fun l =>
    match l.zpid with
    | some z => z ≠ "" ∧ z ∉ favoriteZpids ∧ z ∉ dismissedZpids
    | none => False)

/-- Python stable `list.sort(key=key, reverse=True)` (descending). -/
def sortDescBy (key : Listing → ℚ) (l : List Listing) : List Listing :=
  List.insertionSort (fun a b => key b ≤ key a) l

/-- Python stable `list.sort(key=key)` (ascending). -/
def sortAscBy (key : Listing → ℚ) (l : List Listing) : List Listing :=
  List.insertionSort (fun a b => key a ≤ key b) l

/-- The under-a-million bucket: `(l.get("price") or 0) < 1_000_000`. -/
def under1m (ls : List Listing) : List Listing :=
  ls.filter (fun l => pyOr l.price 0 < 1000000)

/-- The at-least-a-million bucket: `(l.get("price") or 0) >= 1_000_000`. -/
def over1m (ls : List Listing) : List Listing :=
  ls.filter (fun l => 1000000 ≤ pyOr l.price 0)

/-- The initial quota pick: first 4 of the sorted under bucket plus
first 1 of the sorted over bucket. -/
def quotaPick (score : Listing → ℚ) (newListings : List Listing) : List Listing :=
  (sortDescBy score (under1m newListings)).take 4
    ++ (sortDescBy score (over1m newListings)).take 1

/-- The backfill pool: `under_1m[4:] + over_1m[1:]` (sorted buckets),
minus listings already selected. -/
def backfillPool (score : Listing → ℚ) (newListings : List Listing) : List Listing :=
  ((sortDescBy score (under1m newListings)).drop 4
    ++ (sortDescBy score (over1m newListings)).drop 1).filter
    (fun l => l ∉ quotaPick score newListings)

/-- Quota pick plus backfill up to `MAX_LISTINGS`
(`top_listings.extend(extras[:remaining])`). -/
def pickTop (score : Listing → ℚ) (newListings : List Listing) : List Listing :=
  let top := quotaPick score newListings
  let remaining := MAX_LISTINGS - top.length
  if remaining > 0 then top ++ (backfillPool score newListings).take remaining
  else top

/-- `l.get("neighborhood") in preferred` (a `None` neighborhood is
never a member of the string list). -/
def inPreferred (preferred : List String) (l : Listing) : Bool :=
  match l.neighborhood with
  | some n => n ∈ preferred
  | none => false

/-- The preferred-neighborhood swap (`main.py` lines 316-333): when the
preferred list is non-empty, no selected listing matches it, and some
candidate outside the selection does, sort the candidates descending
and the selection ascending by score and overwrite the selection's
first (lowest-scored) slot.  The source indexes `top_listings[0]`; the
`best :: _, []` fallback below is unreachable from `selectShortlist`
(candidates are drawn from `newListings`, and a non-empty `newListings`
makes `pickTop` non-empty). -/
def swapPreferred (score : Listing → ℚ) (preferred : List String)
    (newListings top : List Listing) : List Listing :=
  if preferred = [] then top
  else if top.any (inPreferred preferred) then top
  else
    let cands := newListings.filter (fun l => inPreferred preferred l ∧ l ∉ top)
    match sortDescBy score cands, sortAscBy score top with
    | best :: _, _ :: rest => best :: rest
    | _, _ => top

/-- The complete shortlist pipeline after scoring: quota pick,
backfill, preferred-neighborhood swap, and the final display sort by
price descending. -/
def selectShortlist (score : Listing → ℚ) (preferred : List String)
    (newListings : List Listing) : List Listing :=
  sortDescBy (fun l => pyOr l.price 0)
    (swapPreferred score preferred newListings (pickTop score newListings))

/-- The selection as run by `main`: candidates filtered against
favorites and dismissed, scored by `calculate_relevance_score`, with
the profile's `preferred_neighborhoods`. -/
def selectFromRun (config : Config) (preferences : Preferences)
    (favoriteZpids dismissedZpids : List String)
    (filtered : List Listing) : List Listing :=
  selectShortlist (fun l => calculate_relevance_score l config preferences)
    preferences.preferred_neighborhoods
    (eligibleListings favoriteZpids dismissedZpids filtered)

/-! ### `learning.parse_feedback`

The function lower-cases the text, scans a fixed neighborhood catalog
with substring/sentiment checks, and extracts prices, an HOA flag and
bed/bath minimums.  The two price regexes
`(?:max|maximum|under|below|up to)\s*(?:price)?\s*\$([\d,.]+)\s*([mk])?`
are embedded as an explicit leftmost-match scanner; for this pattern
greedy matching never needs to backtrack into `\s*`, `[\d,.]+` or
`([mk])?` (the characters the following pieces accept are disjoint
from those the greedy pieces consume), so the scanner below computes
exactly the Python match.  `int(float(price_str) * multiplier)` can
raise `ValueError` when the captured numeral is malformed (for example
`"max $,"` captures `","`, the commas are stripped, and `float("")`
raises), so the embedding returns `Option`: `none` is an escaped
exception. -/

/-- Python `str.lower` (ASCII). -/
def pyLower (s : String) : String := ⟨s.toList.map Char.toLower⟩

/-- Substring occurrence at any position of a character list. -/
def containsSubChars (needle : List Char) : List Char → Bool
  | [] => needle.isEmpty
  | c :: cs => needle.isPrefixOf (c :: cs) || containsSubChars needle cs

/-- Python substring membership `needle in hay`. -/
def containsSub (hay needle : String) : Bool :=
  containsSubChars needle.toList hay.toList

/-- Python `str.title`: upper-case a letter not preceded by a letter,
lower-case the rest. -/
def pyTitleGo : List Char → Bool → List Char
  | [], _ => []
  | c :: cs, prevCased =>
    if c.isAlpha then
      (if prevCased then c.toLower else c.toUpper) :: pyTitleGo cs true
    else c :: pyTitleGo cs false

/-- Python `str.title` on a string. -/
def pyTitle (s : String) : String := ⟨pyTitleGo s.toList false⟩

/-- Python `\s` (ASCII). -/
def pyIsSpace (c : Char) : Bool :=
  c = ' ' ∨ c = '\t' ∨ c = '\n' ∨ c = '\r' ∨ c = '\x0b' ∨ c = '\x0c'

/-- The `neighborhood_variants` catalog, in source order. -/
def neighborhood_variants : List (String × List String) := [
  ("tarrytown", ["tarrytown", "tarry town"]),
  ("mueller", ["mueller"]),
  ("hyde park", ["hyde park"]),
  ("east austin", ["east austin"]),
  ("south congress", ["south congress"]),
  ("zilker", ["zilker"]),
  ("barton hills", ["barton hills"]),
  ("travis heights", ["travis heights"]),
  ("clarksville", ["clarksville"]),
  ("rosedale", ["rosedale"]),
  ("crestview", ["crestview"]),
  ("allandale", ["allandale"]),
  ("downtown", ["downtown"]),
  ("domain", ["domain"]),
  ("pflugerville", ["pflugerville"]),
  ("round rock", ["round rock"]),
  ("cedar park", ["cedar park"]),
  ("buda", ["buda"]),
  ("kyle", ["kyle"])]

/-- The add-sentiment test: `"more" in text or "like" in text or
"prefer" in text`. -/
def sentimentAdd (text : String) : Bool :=
  containsSub text ("more") || containsSub text ("like")
    || containsSub text ("prefer")

/-- The remove-sentiment test: `"less" in text or "avoid" in text or
"no " in text`. -/
def sentimentRemove (text : String) : Bool :=
  containsSub text ("less") || containsSub text ("avoid")
    || containsSub text ("no ")

/-- The neighborhood loop of `parse_feedback`, returning the
`add_neighborhoods` and `remove_neighborhoods` lists (an empty list
models an absent key). -/
def neighborhoodUpdates (text : String) : List String × List String :=
  neighborhood_variants.foldl
    (fun acc nv =>
      if nv.2.any (fun v => containsSub text v) then
        if sentimentAdd text then (acc.1 ++ [pyTitle nv.1], acc.2)
        else if sentimentRemove text then (acc.1, acc.2 ++ [pyTitle nv.1])
        else acc
      else acc)
    ([], [])

/-- The characters of the optional literal `price` in the regexes. -/
def priceChars : List Char := ("price").toList

/-- `\$([\d,.]+)\s*([mk])?` from a given point of the text: require a
dollar sign after optional whitespace, capture the maximal non-empty
run of digits, commas and dots, then an optional `m`/`k` suffix after
optional whitespace. -/
def tryPriceTail (cs : List Char) : Option (List Char × Option Char) :=
  match cs.dropWhile pyIsSpace with
  | '$' :: rest =>
    let digits := rest.takeWhile (fun c => c.isDigit ∨ c = ',' ∨ c = '.')
    if digits = [] then none
    else
      match (rest.drop digits.length).dropWhile pyIsSpace with
      | c :: _ =>
        if c = 'm' ∨ c = 'k' then some (digits, some c) else some (digits, none)
      | [] => some (digits, none)
  | _ => none

/-- `\s*(?:price)?\s*\$...` after a matched keyword: the greedy
`(?:price)?` branch is tried first, falling back to the branch without
it (regex backtracking). -/
def matchPriceAfterKw (cs : List Char) : Option (List Char × Option Char) :=
  let cs := cs.dropWhile pyIsSpace
  match (if priceChars.isPrefixOf cs then tryPriceTail (cs.drop priceChars.length)
         else none) with
  | some r => some r
  | none => tryPriceTail cs

/-- Try the keyword alternation at one position, in alternation order,
falling through to the next alternative when the tail fails. -/
def tryKwsAt (kws : List (List Char)) (cs : List Char) :
    Option (List Char × Option Char) :=
  match kws with
  | [] => none
  | kw :: rest =>
    if kw.isPrefixOf cs then
      match matchPriceAfterKw (cs.drop kw.length) with
      | some r => some r
      | none => tryKwsAt rest cs
    else tryKwsAt rest cs

/-- `re.search` for a price pattern: leftmost matching position wins. -/
def searchPrice (kws : List (List Char)) : List Char → Option (List Char × Option Char)
  | [] => none
  | c :: cs =>
    match tryKwsAt kws (c :: cs) with
    | some r => some r
    | none => searchPrice kws cs

/-- Keywords of the `max_price` regex. -/
def maxPriceKws : List (List Char) :=
  (["max", "maximum", "under", "below", "up to"]).map String.toList

/-- Keywords of the `min_price` regex. -/
def minPriceKws : List (List Char) :=
  (["min", "minimum", "above", "over", "at least"]).map String.toList

/-- Value of a digit run. -/
def digitsVal (ds : List Char) : ℕ :=
  ds.foldl (fun acc c => acc * 10 + (c.toNat - 48)) 0

/-- Python `float()` on a string of digits and dots (what remains of a
`[\d,.]+` capture after `replace(",", "")`): defined exactly when the
string has at least one digit and at most one dot, else `ValueError`. -/
def pyFloatDigitsDot (s : List Char) : Option ℚ :=
  if s.any Char.isDigit ∧ s.count '.' ≤ 1 then
    let intPart := s.takeWhile (fun c => c ≠ '.')
    let fracPart := (s.dropWhile (fun c => c ≠ '.')).drop 1
    some ((digitsVal intPart : ℚ) + (digitsVal fracPart : ℚ) / ((10 : ℚ) ^ fracPart.length))
  else none

/-- The `m`/`k` suffix multiplier. -/
def multOf : Option Char → ℚ
  | some c => if c = 'm' then 1000000 else if c = 'k' then 1000 else 1
  | none => 1

/-- One price extraction: `none` = `ValueError` escaped from `float`,
`some none` = no regex match (no update for the category),
`some (some v)` = `int(float(price_str) * multiplier)`. -/
def extractPrice (kws : List (List Char)) (text : List Char) : Option (Option ℤ) :=
  match searchPrice kws text with
  | some (digits, suf) =>
    match pyFloatDigitsDot (digits.filter (fun c => c ≠ ',')) with
    | some v => some (some ⌊v * multOf suf⌋)
    | none => none
  | none => some none

/-- `(\d+)\+?\s*(?:suffixes)` scanner for the bed/bath regexes:
leftmost digit run followed (after an optional `+` and whitespace) by
one of the suffixes. -/
def matchNumThen (suffixes : List (List Char)) : List Char → Option ℕ
  | [] => none
  | c :: cs =>
    if c.isDigit then
      let digits := (c :: cs).takeWhile Char.isDigit
      let afterDigits := (c :: cs).drop digits.length
      let afterPlus := match afterDigits with
        | '+' :: r => r
        | r => r
      let rest := afterPlus.dropWhile pyIsSpace
      if suffixes.any (fun suf => suf.isPrefixOf rest) then some (digitsVal digits)
      else matchNumThen suffixes cs
    else matchNumThen suffixes cs

/-- Suffix alternation of the beds regex. -/
def bedsSuffixes : List (List Char) :=
  (["bed", "bedroom", "br", "bd"]).map String.toList

/-- Suffix alternation of the baths regex. -/
def bathsSuffixes : List (List Char) :=
  (["bath", "bathroom", "ba"]).map String.toList

/-- The HOA phrase tests of `parse_feedback`. -/
def hoaUpdate (text : String) : Option Bool :=
  if containsSub text ("no hoa") || containsSub text ("without hoa")
      || containsSub text ("hate hoa") then some false
  else if containsSub text ("with hoa") || containsSub text ("prefer hoa")
      || containsSub text ("like hoa") then some true
  else none

/-- The update set returned by `parse_feedback` (`updates` dict).
Empty lists and `none` fields model absent keys. -/
structure UpdateSet where
  add_neighborhoods : List String := []
  remove_neighborhoods : List String := []
  max_price : Option ℤ := none
  min_price : Option ℤ := none
  hoa_preference : Option Bool := none
  min_beds : Option ℕ := none
  min_baths : Option ℕ := none
deriving DecidableEq, Repr

/-- `learning.parse_feedback`; `none` models an escaped `ValueError`
from one of the price conversions. -/
def parse_feedback (feedback_text : String) : Option UpdateSet :=
  let text := pyLower feedback_text
  let nu := neighborhoodUpdates text
  match extractPrice maxPriceKws text.toList, extractPrice minPriceKws text.toList with
  | some maxp, some minp =>
    some { add_neighborhoods := nu.1, remove_neighborhoods := nu.2,
           max_price := maxp, min_price := minp,
           hoa_preference := hoaUpdate text,
           min_beds := matchNumThen bedsSuffixes text.toList,
           min_baths := matchNumThen bathsSuffixes text.toList }
  | _, _ => none

/-! ### `learning.apply_feedback_updates`

Only the preference-profile mutation is modelled; the changelog string
and the price/beds/baths config notes do not touch the profile. -/

/-- `learning.apply_feedback_updates`, profile part: add-neighborhood
entries append to the preferred list and set the weight to `1.5`, but
only when the name is not already preferred; remove-neighborhood
entries drop the name from the preferred list when present and
overwrite the weight with `0.5` only when a weight entry exists; an
`hoa_preference` update overwrites the field. -/
def apply_feedback_updates (updates : UpdateSet) (prefs : Preferences) :
    Preferences :=
  let prefs := updates.add_neighborhoods.foldl
    (fun p n =>
      if n ∉ p.preferred_neighborhoods then
        { p with preferred_neighborhoods := p.preferred_neighborhoods ++ [n],
                 neighborhood_weights := dictSet p.neighborhood_weights n 1.5 }
      else p)
    prefs
  let prefs := updates.remove_neighborhoods.foldl
    (fun p n =>
      let p := if n ∈ p.preferred_neighborhoods then
          { p with preferred_neighborhoods := p.preferred_neighborhoods.erase n }
        else p
      if (List.lookup n p.neighborhood_weights).isSome then
        { p with neighborhood_weights := dictSet p.neighborhood_weights n 0.5 }
      else p)
    prefs
  match updates.hoa_preference with
  | some b => { prefs with hoa_preference := some b }
  | none => prefs

/-! ## Theorems -/

/-! ### C5: neutral defaults in `calculate_relevance_score` -/

/-- The C5 scenario candidate: `price=500000`, `distance=10`, all other
fields absent. -/
def c5listing : Listing := { price := some 500000, distance := some 10 }

/-- The C5 scenario configuration: `min_price=0`, `max_price=1000000`. -/
def c5config : Config := { min_price := some 0, max_price := some 1000000 }

/-- C5: the relevance score degrades missing fields to neutral
defaults: absent distance gives `distance_score = 50`, degenerate
effective price bounds give `price_score = 50`, absent days-on-market
is treated as `30` (giving newness `50`); and the scenario listing
(`price=500000`, `min_price=0`, `max_price=1000000`, no
days-on-market, `distance=10`, neutral profile) scores `50` in every
component and in total. -/
theorem C5_missing_field_defaults :
    (∀ l : Listing, l.distance = none → distanceScore l = 50) ∧
    (∀ (l : Listing) (c : Config),
      ¬ pyOr c.min_price 0 < pyOr c.max_price (pyOr l.price 0 * 2) →
        priceScore l c = 50) ∧
    (∀ l : Listing, l.days_on_market = none →
      newnessScore l = max 0 (100 - ((30 : ℚ) / 60) * 100) ∧ newnessScore l = 50) ∧
    (distanceScore c5listing = 50 ∧ priceScore c5listing c5config = 50 ∧
      newnessScore c5listing = 50 ∧
      calculate_relevance_score c5listing c5config get_default_preferences = 50) := by
  refine ⟨?_, ?_, ?_, ?_⟩
  · intro l h
    simp [distanceScore, h]
  · intro l c h
    simp only [priceScore]
    rw [if_neg h]
  · intro l h
    constructor
    · simp [newnessScore, pyOr, h]
    · simp [newnessScore, pyOr, h]
      norm_num
  · have hd : distanceScore c5listing = 50 := by
      norm_num [distanceScore, c5listing, max_def]
    have hp : priceScore c5listing c5config = 50 := by
      norm_num [priceScore, c5listing, c5config, pyOr, max_def, min_def]
    have hn : newnessScore c5listing = 50 := by
      norm_num [newnessScore, c5listing, pyOr, max_def]
    refine ⟨hd, hp, hn, ?_⟩
    rw [calculate_relevance_score, hd, hp, hn]
    norm_num [calculate_preference_boost, c5listing, neighborhoodFactor,
      priceFactor, sqftFactor, bedsFactor, bathsFactor, hoaFactor,
      get_default_preferences]

/-- Witness for C5 at a concrete distance-free listing. -/
theorem C5_witness :
    distanceScore { distance := none } = 50 :=
  C5_missing_field_defaults.1 { distance := none } rfl

/-! ### C7: the boost is a product of independent factors -/

/-- C7: the preference boost equals `1` multiplied by the six factor
values (each factor `1` when its listing field or profile attribute is
absent), and any permutation of the factor list has the same product. -/
theorem C7_boost_multiplicative (l : Listing) (p : Preferences)
    (fs : List ℚ) (hperm : fs.Perm (boostFactors l p)) :
    calculate_preference_boost l p = (boostFactors l p).prod ∧
    fs.prod = calculate_preference_boost l p ∧
    (l.neighborhood = none → neighborhoodFactor l p = 1) ∧
    (l.price = none ∨ p.ideal_price = none → priceFactor l p = 1) ∧
    (l.sqft = none ∨ p.ideal_sqft = none → sqftFactor l p = 1) ∧
    (l.beds = none ∨ p.ideal_beds = none → bedsFactor l p = 1) ∧
    (l.baths = none ∨ p.ideal_baths = none → bathsFactor l p = 1) ∧
    (l.has_hoa = none ∨ p.hoa_preference = none → hoaFactor l p = 1) := by
  have hprod : calculate_preference_boost l p = (boostFactors l p).prod := by
    simp [calculate_preference_boost, boostFactors]
    ring
  refine ⟨hprod, ?_, ?_, ?_, ?_, ?_, ?_, ?_⟩
  · rw [hperm.prod_eq, hprod]
  · intro h
    simp [neighborhoodFactor, h]
  · rintro (h | h)
    · simp [priceFactor, h]
    · rcases hp : l.price with _ | q <;> simp [priceFactor, h, hp]
  · rintro (h | h)
    · simp [sqftFactor, h]
    · rcases hp : l.sqft with _ | q <;> simp [sqftFactor, h, hp]
  · rintro (h | h)
    · simp [bedsFactor, h]
    · rcases hp : l.beds with _ | q <;> simp [bedsFactor, h, hp]
  · rintro (h | h)
    · simp [bathsFactor, h]
    · rcases hp : l.baths with _ | q <;> simp [bathsFactor, h, hp]
  · rintro (h | h)
    · simp [hoaFactor, h]
    · rcases hp : l.has_hoa with _ | b <;> simp [hoaFactor, h, hp]

/-- Witness for C7: the reversed factor list of a listing/profile pair
with several applicable factors has the boost as its product. -/
theorem C7_witness :
    (boostFactors { price := some 100, sqft := some 1000 }
        { ideal_price := some 100, ideal_sqft := some 2000 }).reverse.prod =
      calculate_preference_boost { price := some 100, sqft := some 1000 }
        { ideal_price := some 100, ideal_sqft := some 2000 } :=
  (C7_boost_multiplicative _ _ _ (List.reverse_perm _)).2.1

/-! ### C8: feedback overrides -/

/-- Looking up a key just written by `dictSet` yields the new value. -/
theorem lookup_dictSet (w : List (String × ℚ)) (n : String) (v : ℚ) :
    List.lookup n (dictSet w n v) = some v := by
  induction w with
  | nil => simp [dictSet, List.lookup]
  | cons p rest ih =>
    rcases p with ⟨m, u⟩
    by_cases h : m = n
    · subst h
      simp [dictSet, List.lookup]
    · have hb : (n == m) = false := by
        simp only [beq_eq_false_iff_ne]
        exact fun e => h e.symm
      simp [dictSet, List.lookup, h, hb, ih]

/-- The update set of the C8 counterexample: add `Zilker`, remove
`Mueller`. -/
def c8updates : UpdateSet :=
  { add_neighborhoods := ["Zilker"], remove_neighborhoods := ["Mueller"] }

/-- The profile of the C8 counterexample: both neighborhoods already
preferred, only `Zilker` carrying a (non-`1.5`) weight entry. -/
def c8prefs : Preferences :=
  { preferred_neighborhoods := ["Zilker", "Mueller"],
    neighborhood_weights := [(("Zilker" : String), (6 / 5 : ℚ))] }

/-- C8 counterexample: adding `Zilker` (already preferred) does *not*
set its weight to `1.5` (it stays `6/5`), and removing `Mueller` (which
has no weight entry) does *not* create a `0.5` entry — refuting the
claim that an add always sets the weight to `1.5` and a remove always
sets it to `0.5`. -/
theorem C8_counterexample :
    (apply_feedback_updates c8updates c8prefs).neighborhood_weights =
      [(("Zilker" : String), (6 / 5 : ℚ))] ∧
    (apply_feedback_updates c8updates c8prefs).preferred_neighborhoods = ["Zilker"] ∧
    ¬ List.lookup ("Zilker")
        (apply_feedback_updates c8updates c8prefs).neighborhood_weights = some 1.5 ∧
    ¬ List.lookup ("Mueller")
        (apply_feedback_updates c8updates c8prefs).neighborhood_weights = some 0.5 := by
  have h : apply_feedback_updates c8updates c8prefs =
      { preferred_neighborhoods := ["Zilker"],
        neighborhood_weights := [(("Zilker" : String), (6 / 5 : ℚ))] } := by
    simp [apply_feedback_updates, c8updates, c8prefs, List.lookup, List.erase]
  refine ⟨by rw [h], by rw [h], ?_, ?_⟩
  · rw [h]
    simp [List.lookup]
    norm_num
  · rw [h]
    have hb : (("Mueller" : String) == "Zilker") = false := by decide
    simp [List.lookup, hb]

/-- C8 amended: a single neighborhood add appends the name and sets its
weight to `1.5` only when the name is not already preferred (otherwise
the profile is unchanged); a single remove erases the name from the
preferred list and overwrites the weight with `0.5` only when a weight
entry already exists; update sets with only price/beds/baths categories
leave the profile untouched. -/
theorem C8_feedback_overrides (n : String) (p : Preferences)
    (mp mnp : Option ℤ) (mb mba : Option ℕ) :
    (apply_feedback_updates { add_neighborhoods := [n] } p =
      (if n ∈ p.preferred_neighborhoods then p
       else { p with preferred_neighborhoods := p.preferred_neighborhoods ++ [n],
                     neighborhood_weights := dictSet p.neighborhood_weights n 1.5 })) ∧
    (n ∉ p.preferred_neighborhoods →
      List.lookup n
        (apply_feedback_updates { add_neighborhoods := [n] } p).neighborhood_weights
        = some 1.5) ∧
    (apply_feedback_updates { remove_neighborhoods := [n] } p =
      (if (List.lookup n p.neighborhood_weights).isSome then
        { p with
          preferred_neighborhoods :=
            if n ∈ p.preferred_neighborhoods then p.preferred_neighborhoods.erase n
            else p.preferred_neighborhoods,
          neighborhood_weights := dictSet p.neighborhood_weights n 0.5 }
       else if n ∈ p.preferred_neighborhoods then
        { p with preferred_neighborhoods := p.preferred_neighborhoods.erase n }
       else p)) ∧
    ((List.lookup n p.neighborhood_weights).isSome →
      List.lookup n
        (apply_feedback_updates { remove_neighborhoods := [n] } p).neighborhood_weights
        = some 0.5) ∧
    (apply_feedback_updates
      { max_price := mp, min_price := mnp, min_beds := mb, min_baths := mba } p = p) := by
  have hadd : apply_feedback_updates { add_neighborhoods := [n] } p =
      (if n ∈ p.preferred_neighborhoods then p
       else { p with preferred_neighborhoods := p.preferred_neighborhoods ++ [n],
                     neighborhood_weights := dictSet p.neighborhood_weights n 1.5 }) := by
    by_cases h : n ∈ p.preferred_neighborhoods <;>
      simp [apply_feedback_updates, h]
  have hrem : apply_feedback_updates { remove_neighborhoods := [n] } p =
      (if (List.lookup n p.neighborhood_weights).isSome then
        { p with
          preferred_neighborhoods :=
            if n ∈ p.preferred_neighborhoods then p.preferred_neighborhoods.erase n
            else p.preferred_neighborhoods,
          neighborhood_weights := dictSet p.neighborhood_weights n 0.5 }
       else if n ∈ p.preferred_neighborhoods then
        { p with preferred_neighborhoods := p.preferred_neighborhoods.erase n }
       else p) := by
    by_cases h1 : n ∈ p.preferred_neighborhoods <;>
      by_cases h2 : (List.lookup n p.neighborhood_weights).isSome <;>
        simp [apply_feedback_updates, h1, h2]
  refine ⟨hadd, ?_, hrem, ?_, ?_⟩
  · intro h
    rw [hadd, if_neg h]
    exact lookup_dictSet _ _ _
  · intro h
    rw [hrem, if_pos h]
    exact lookup_dictSet _ _ _
  · simp [apply_feedback_updates]

/-- Witness for C8 at a fresh neighborhood on the default profile. -/
theorem C8_witness :
    List.lookup ("A")
      (apply_feedback_updates { add_neighborhoods := ["A"] }
        get_default_preferences).neighborhood_weights = some 1.5 :=
  (C8_feedback_overrides ("A") get_default_preferences none none none none).2.1
    (by simp [get_default_preferences])

/-! ### C6: the `"I love Tarrytown, max $750k, no HOA"` scenario -/

/-- The C6 feedback text. -/
def C6input : String := "I love Tarrytown, max $750k, no HOA"

/-- What `parse_feedback` actually returns on `C6input`: the
lower-cased text contains none of the add keywords (`more`, `like`,
`prefer` — `love` is not among them) but does contain `"no "` (from
`no hoa`), so Tarrytown lands in `remove_neighborhoods`. -/
def c6parsed : UpdateSet :=
  { remove_neighborhoods := ["Tarrytown"], max_price := some 750000,
    hoa_preference := some false }

/-- Evaluation of `parse_feedback` on the C6 text (helper). -/
theorem parse_C6input_eq : parse_feedback C6input = some c6parsed := by
  have hnb : neighborhoodUpdates (pyLower C6input) = ([], ["Tarrytown"]) := by decide
  have hmax : searchPrice maxPriceKws (pyLower C6input).toList =
      some (("750").toList, some 'k') := by decide
  have hmin : searchPrice minPriceKws (pyLower C6input).toList = none := by decide
  have hhoa : hoaUpdate (pyLower C6input) = some false := by decide
  have hbeds : matchNumThen bedsSuffixes (pyLower C6input).toList = none := by decide
  have hbaths : matchNumThen bathsSuffixes (pyLower C6input).toList = none := by decide
  have hfl : pyFloatDigitsDot ((("750").toList).filter (fun c => c ≠ ',')) =
      some 750 := by
    have h1 : (("750").toList.filter (fun c => c ≠ ',')) = ("750").toList := by decide
    rw [h1, pyFloatDigitsDot, if_pos (by decide)]
    rw [show ("750").toList.takeWhile (fun c => c ≠ '.') = ("750").toList from by decide]
    rw [show ((("750").toList.dropWhile (fun c => c ≠ '.')).drop 1) = [] from by decide]
    have hdv : digitsVal (("750").toList) = 750 := by decide
    have hdv0 : digitsVal ([] : List Char) = 0 := by decide
    simp only [hdv, hdv0]
    norm_num
  have hext : extractPrice maxPriceKws (pyLower C6input).toList =
      some (some 750000) := by
    rw [extractPrice, hmax]
    dsimp only
    rw [hfl]
    dsimp only
    have hm : multOf (some 'k') = 1000 := by
      rw [multOf, if_neg (by decide), if_pos (by decide)]
    rw [hm]
    rw [show ((750 : ℚ) * 1000) = ((750000 : ℤ) : ℚ) by norm_num, Int.floor_intCast]
  have hminext : extractPrice minPriceKws (pyLower C6input).toList = some none := by
    rw [extractPrice, hmin]
  rw [parse_feedback]
  rw [hext, hminext]
  rw [hnb, hhoa, hbeds, hbaths]
  rfl

/-- C6 counterexample: on the claim's text the parsed update set has an
*empty* `add_neighborhoods` — there is no add-neighborhood intent for
Tarrytown, refuting the claim as stated. -/
theorem C6_counterexample :
    parse_feedback C6input = some c6parsed ∧ c6parsed.add_neighborhoods = [] :=
  ⟨parse_C6input_eq, rfl⟩

/-- C6 amended: the parse yields a *remove*-neighborhood intent for
Tarrytown (triggered by the `"no "` sentiment keyword and the absence
of `more`/`like`/`prefer`), together with `max_price = 750000` and
`hoa_preference = False` as claimed. -/
theorem C6_amended_parse :
    parse_feedback C6input = some c6parsed ∧
    "Tarrytown" ∈ c6parsed.remove_neighborhoods ∧
    c6parsed.max_price = some 750000 ∧
    c6parsed.hoa_preference = some false :=
  ⟨parse_C6input_eq, by decide, rfl, rfl⟩

/-! ### C10: a numeric field equal to `0` behaves like an absent field -/

/-- Replace `some 0` by `none`. -/
def zeroAsNone (o : Option ℚ) : Option ℚ := if o = some 0 then none else o

/-- Normalize the four numeric listing fields governed by truthiness
checks, sending a present `0` to absent. -/
def zeroNumericsAsNone (l : Listing) : Listing :=
  { l with price := zeroAsNone l.price, sqft := zeroAsNone l.sqft,
           beds := zeroAsNone l.beds, baths := zeroAsNone l.baths }

/-- Normalize the four ideal attributes of a profile likewise. -/
def zeroIdealsAsNone (p : Preferences) : Preferences :=
  { p with ideal_price := zeroAsNone p.ideal_price,
           ideal_sqft := zeroAsNone p.ideal_sqft,
           ideal_beds := zeroAsNone p.ideal_beds,
           ideal_baths := zeroAsNone p.ideal_baths }

/-- The truthiness filter does not see the difference between a present
`0` and an absent value. -/
theorem truthyField_zeroAsNone (o : Option ℚ) :
    truthyField (zeroAsNone o) = truthyField o := by
  rcases o with _ | q
  · rfl
  · by_cases h : q = 0 <;> simp [zeroAsNone, truthyField, h]

/-- `priceFactor` ignores the `some 0` / `none` distinction. -/
theorem priceFactor_zero (l : Listing) (p : Preferences) :
    priceFactor (zeroNumericsAsNone l) p = priceFactor l p := by
  rcases hp : l.price with _ | q
  · simp [priceFactor, zeroNumericsAsNone, zeroAsNone, hp]
  · by_cases h : q = 0 <;>
      rcases hi : p.ideal_price with _ | i <;>
        simp [priceFactor, zeroNumericsAsNone, zeroAsNone, hp, hi, h]

/-- `sqftFactor` ignores the `some 0` / `none` distinction. -/
theorem sqftFactor_zero (l : Listing) (p : Preferences) :
    sqftFactor (zeroNumericsAsNone l) p = sqftFactor l p := by
  rcases hp : l.sqft with _ | q
  · simp [sqftFactor, zeroNumericsAsNone, zeroAsNone, hp]
  · by_cases h : q = 0 <;>
      rcases hi : p.ideal_sqft with _ | i <;>
        simp [sqftFactor, zeroNumericsAsNone, zeroAsNone, hp, hi, h]

/-- `bedsFactor` ignores the `some 0` / `none` distinction. -/
theorem bedsFactor_zero (l : Listing) (p : Preferences) :
    bedsFactor (zeroNumericsAsNone l) p = bedsFactor l p := by
  rcases hp : l.beds with _ | q
  · simp [bedsFactor, zeroNumericsAsNone, zeroAsNone, hp]
  · by_cases h : q = 0 <;>
      rcases hi : p.ideal_beds with _ | i <;>
        simp [bedsFactor, zeroNumericsAsNone, zeroAsNone, hp, hi, h]

/-- `bathsFactor` ignores the `some 0` / `none` distinction. -/
theorem bathsFactor_zero (l : Listing) (p : Preferences) :
    bathsFactor (zeroNumericsAsNone l) p = bathsFactor l p := by
  rcases hp : l.baths with _ | q
  · simp [bathsFactor, zeroNumericsAsNone, zeroAsNone, hp]
  · by_cases h : q = 0 <;>
      rcases hi : p.ideal_baths with _ | i <;>
        simp [bathsFactor, zeroNumericsAsNone, zeroAsNone, hp, hi, h]

/-- Profile-side analogues for the four ideal attributes. -/
theorem factors_zeroIdeals (l : Listing) (p : Preferences) :
    priceFactor l (zeroIdealsAsNone p) = priceFactor l p ∧
    sqftFactor l (zeroIdealsAsNone p) = sqftFactor l p ∧
    bedsFactor l (zeroIdealsAsNone p) = bedsFactor l p ∧
    bathsFactor l (zeroIdealsAsNone p) = bathsFactor l p := by
  refine ⟨?_, ?_, ?_, ?_⟩
  · rcases hi : p.ideal_price with _ | i
    · simp [priceFactor, zeroIdealsAsNone, zeroAsNone, hi]
    · by_cases h : i = 0 <;>
        rcases hp : l.price with _ | q <;>
          simp [priceFactor, zeroIdealsAsNone, zeroAsNone, hp, hi, h]
  · rcases hi : p.ideal_sqft with _ | i
    · simp [sqftFactor, zeroIdealsAsNone, zeroAsNone, hi]
    · by_cases h : i = 0 <;>
        rcases hp : l.sqft with _ | q <;>
          simp [sqftFactor, zeroIdealsAsNone, zeroAsNone, hp, hi, h]
  · rcases hi : p.ideal_beds with _ | i
    · simp [bedsFactor, zeroIdealsAsNone, zeroAsNone, hi]
    · by_cases h : i = 0 <;>
        rcases hp : l.beds with _ | q <;>
          simp [bedsFactor, zeroIdealsAsNone, zeroAsNone, hp, hi, h]
  · rcases hi : p.ideal_baths with _ | i
    · simp [bathsFactor, zeroIdealsAsNone, zeroAsNone, hi]
    · by_cases h : i = 0 <;>
        rcases hp : l.baths with _ | q <;>
          simp [bathsFactor, zeroIdealsAsNone, zeroAsNone, hp, hi, h]

/-- The collectors of `update_preferences_from_favorites` are invariant
under the zero-to-absent normalization of the four numeric fields. -/
theorem collectors_zeroMap (nearby : ℚ → ℚ → ℚ → List String)
    (favorites : List (String × Listing)) :
    collectNeighborhoods nearby
        (favorites.map (fun zl => (zl.1, zeroNumericsAsNone zl.2))) =
      collectNeighborhoods nearby favorites ∧
    (∀ f : Listing → Option ℚ, (∀ l, f (zeroNumericsAsNone l) = zeroAsNone (f l)) →
      collectField f (favorites.map (fun zl => (zl.1, zeroNumericsAsNone zl.2))) =
        collectField f favorites) ∧
    collectHoa (favorites.map (fun zl => (zl.1, zeroNumericsAsNone zl.2))) =
      collectHoa favorites := by
  refine ⟨?_, ?_, ?_⟩
  · rw [collectNeighborhoods, collectNeighborhoods, List.foldl_map]
    congr 1
  · intro f hf
    rw [collectField, collectField, List.filterMap_map]
    congr 1
    funext zl
    simp only [Function.comp]
    rw [hf, truthyField_zeroAsNone]
  · rw [collectHoa, collectHoa, List.filterMap_map]
    congr 1

/-- C10: a present `0` in price, sqft, beds or baths — on the listing
in boost computation, on the profile's ideal attributes, or on a
favorite in profile derivation — behaves exactly like an absent field;
only the HOA flag distinguishes `False` from absent (shown by a
concrete boost difference and a concrete derivation difference). -/
theorem C10_zero_behaves_as_absent :
    (∀ (l : Listing) (p : Preferences),
      calculate_preference_boost (zeroNumericsAsNone l) p =
        calculate_preference_boost l p) ∧
    (∀ (l : Listing) (p : Preferences),
      calculate_preference_boost l (zeroIdealsAsNone p) =
        calculate_preference_boost l p) ∧
    (∀ (nearby : ℚ → ℚ → ℚ → List String) (favorites : List (String × Listing)),
      update_preferences_from_favorites nearby
          (favorites.map (fun zl => (zl.1, zeroNumericsAsNone zl.2))) =
        update_preferences_from_favorites nearby favorites) ∧
    calculate_preference_boost { has_hoa := some false } { hoa_preference := some false } ≠
      calculate_preference_boost {} { hoa_preference := some false } ∧
    (update_preferences_from_favorites (fun _ _ _ => [])
        [(("z" : String), { has_hoa := some false })]).hoa_preference = some false ∧
    (update_preferences_from_favorites (fun _ _ _ => [])
        [(("z" : String), {})]).hoa_preference = none := by
  refine ⟨?_, ?_, ?_, ?_, ?_, ?_⟩
  · intro l p
    rw [calculate_preference_boost, calculate_preference_boost]
    rw [priceFactor_zero, sqftFactor_zero, bedsFactor_zero, bathsFactor_zero]
    rw [show neighborhoodFactor (zeroNumericsAsNone l) p = neighborhoodFactor l p from by
      simp [neighborhoodFactor, zeroNumericsAsNone]]
    rw [show hoaFactor (zeroNumericsAsNone l) p = hoaFactor l p from by
      simp [hoaFactor, zeroNumericsAsNone]]
  · intro l p
    obtain ⟨h1, h2, h3, h4⟩ := factors_zeroIdeals l p
    rw [calculate_preference_boost, calculate_preference_boost, h1, h2, h3, h4]
    rw [show neighborhoodFactor l (zeroIdealsAsNone p) = neighborhoodFactor l p from by
      simp [neighborhoodFactor, zeroIdealsAsNone]]
    rw [show hoaFactor l (zeroIdealsAsNone p) = hoaFactor l p from by
      simp [hoaFactor, zeroIdealsAsNone]]
  · intro nearby favorites
    obtain ⟨hn, hf, hh⟩ := collectors_zeroMap nearby favorites
    simp only [update_preferences_from_favorites, List.map_eq_nil_iff]
    rw [hn, hh]
    rw [hf Listing.price (fun l => rfl), hf Listing.sqft (fun l => rfl),
        hf Listing.beds (fun l => rfl), hf Listing.baths (fun l => rfl)]
  · simp [calculate_preference_boost, neighborhoodFactor, priceFactor,
      sqftFactor, bedsFactor, bathsFactor, hoaFactor]
    norm_num
  · simp [update_preferences_from_favorites, collectNeighborhoods, collectField,
      collectHoa, countsOf, truthyField, buildPrefs, withNeighborhoodStats,
      withIdealPrice, withIdealSqft, withIdealBeds, withIdealBaths, withHoaPref]
  · simp [update_preferences_from_favorites, collectNeighborhoods, collectField,
      collectHoa, countsOf, truthyField, buildPrefs, withNeighborhoodStats,
      withIdealPrice, withIdealSqft, withIdealBeds, withIdealBaths, withHoaPref,
      get_default_preferences]

/-! ### C4: statistical neighborhood weights -/

/-- Every count in a bump result is at least `1`, provided the
accumulator's counts are. -/
theorem mem_bumpCount_pos (acc : List (String × ℕ)) (n : String)
    (hacc : ∀ p ∈ acc, 1 ≤ p.2) : ∀ p ∈ bumpCount acc n, 1 ≤ p.2 := by
  induction acc with
  | nil =>
    intro p hp
    simp [bumpCount] at hp
    simp [hp]
  | cons q rest ih =>
    rcases q with ⟨m, c⟩
    intro p hp
    by_cases h : m = n
    · simp [bumpCount, h] at hp
      rcases hp with hp | hp
      · simp [hp]
      · exact hacc p (List.mem_cons_of_mem _ hp)
    · simp [bumpCount, h] at hp
      rcases hp with hp | hp
      · subst hp
        exact hacc (m, c) (List.mem_cons_self _ _)
      · exact ih (fun r hr => hacc r (List.mem_cons_of_mem _ hr)) p hp

/-- Every count produced by `countsOf` is at least `1`. -/
theorem countsOf_pos (ns : List String) : ∀ p ∈ countsOf ns, 1 ≤ p.2 := by
  suffices h : ∀ (ns : List String) (acc : List (String × ℕ)),
      (∀ p ∈ acc, 1 ≤ p.2) → ∀ p ∈ ns.foldl bumpCount acc, 1 ≤ p.2 by
    exact h ns [] (by simp)
  intro ns
  induction ns with
  | nil => intro acc hacc; simpa using hacc
  | cons n rest ih =>
    intro acc hacc
    exact ih (bumpCount acc n) (mem_bumpCount_pos acc n hacc)

/-- Every count is bounded by `maxCount`. -/
theorem le_maxCount (counts : List (String × ℕ)) :
    ∀ p ∈ counts, p.2 ≤ maxCount counts := by
  induction counts with
  | nil => simp
  | cons q rest ih =>
    intro p hp
    rcases List.mem_cons.mp hp with hp | hp
    · subst hp
      simp [maxCount]
    · exact le_trans (ih p hp) (by simp [maxCount])

/-- Bumping never yields the empty dict. -/
theorem bumpCount_ne_nil (acc : List (String × ℕ)) (n : String) :
    bumpCount acc n ≠ [] := by
  rcases acc with _ | ⟨⟨m, c⟩, rest⟩
  · simp [bumpCount]
  · by_cases h : m = n <;> simp [bumpCount, h]

/-- `countsOf` of a non-empty neighborhood list is non-empty. -/
theorem countsOf_ne_nil (ns : List String) (h : ns ≠ []) : countsOf ns ≠ [] := by
  suffices hgen : ∀ (ns : List String) (acc : List (String × ℕ)),
      acc ≠ [] ∨ ns ≠ [] → ns.foldl bumpCount acc ≠ [] by
    exact hgen ns [] (Or.inr h)
  intro ns
  induction ns with
  | nil =>
    intro acc hacc
    simpa using hacc.resolve_right (by simp)
  | cons n rest ih =>
    intro acc _
    exact ih (bumpCount acc n) (Or.inl (bumpCount_ne_nil acc n))

/-- The maximum count of a non-empty counts dict is at least `1`. -/
theorem maxCount_pos (counts : List (String × ℕ)) (h : counts ≠ [])
    (hpos : ∀ p ∈ counts, 1 ≤ p.2) : 1 ≤ maxCount counts := by
  rcases counts with _ | ⟨q, rest⟩
  · simp at h
  · calc 1 ≤ q.2 := hpos q (List.mem_cons_self _ _)
    _ ≤ maxCount (q :: rest) := by simp [maxCount]

/-- The ideal-price stage leaves the neighborhood fields alone. -/
theorem withIdealPrice_other (xs : List ℚ) (p : Preferences) :
    (withIdealPrice xs p).neighborhood_weights = p.neighborhood_weights ∧
    (withIdealPrice xs p).preferred_neighborhoods = p.preferred_neighborhoods := by
  rw [withIdealPrice]
  split_ifs <;> exact ⟨rfl, rfl⟩

/-- The ideal-sqft stage leaves the neighborhood fields alone. -/
theorem withIdealSqft_other (xs : List ℚ) (p : Preferences) :
    (withIdealSqft xs p).neighborhood_weights = p.neighborhood_weights ∧
    (withIdealSqft xs p).preferred_neighborhoods = p.preferred_neighborhoods := by
  rw [withIdealSqft]
  split_ifs <;> exact ⟨rfl, rfl⟩

/-- The ideal-beds stage leaves the neighborhood fields alone. -/
theorem withIdealBeds_other (xs : List ℚ) (p : Preferences) :
    (withIdealBeds xs p).neighborhood_weights = p.neighborhood_weights ∧
    (withIdealBeds xs p).preferred_neighborhoods = p.preferred_neighborhoods := by
  rw [withIdealBeds]
  split_ifs <;> exact ⟨rfl, rfl⟩

/-- The ideal-baths stage leaves the neighborhood fields alone. -/
theorem withIdealBaths_other (xs : List ℚ) (p : Preferences) :
    (withIdealBaths xs p).neighborhood_weights = p.neighborhood_weights ∧
    (withIdealBaths xs p).preferred_neighborhoods = p.preferred_neighborhoods := by
  rw [withIdealBaths]
  split_ifs <;> exact ⟨rfl, rfl⟩

/-- The HOA stage leaves the neighborhood fields alone. -/
theorem withHoaPref_other (xs : List Bool) (p : Preferences) :
    (withHoaPref xs p).neighborhood_weights = p.neighborhood_weights ∧
    (withHoaPref xs p).preferred_neighborhoods = p.preferred_neighborhoods := by
  simp only [withHoaPref]
  split_ifs <;> exact ⟨rfl, rfl⟩

/-- The `neighborhood_weights` field of `buildPrefs`. -/
theorem buildPrefs_weights (ns : List String)
    (prices sqfts beds_list baths_list : List ℚ) (hoa_values : List Bool) :
    (buildPrefs ns prices sqfts beds_list baths_list hoa_values).neighborhood_weights =
      (if countsOf ns ≠ [] then
        (countsOf ns).map
          (fun nc => (nc.1, 1 + ((nc.2 : ℚ) / (maxCount (countsOf ns) : ℚ)) * 0.5))
       else []) := by
  rw [buildPrefs, (withHoaPref_other _ _).1, (withIdealBaths_other _ _).1,
    (withIdealBeds_other _ _).1, (withIdealSqft_other _ _).1,
    (withIdealPrice_other _ _).1, withNeighborhoodStats]
  split_ifs <;> rfl

/-- The `preferred_neighborhoods` field of `buildPrefs`. -/
theorem buildPrefs_preferred (ns : List String)
    (prices sqfts beds_list baths_list : List ℚ) (hoa_values : List Bool) :
    (buildPrefs ns prices sqfts beds_list baths_list hoa_values).preferred_neighborhoods =
      (if countsOf ns ≠ [] then ((sortCountsDesc (countsOf ns)).take 5).map Prod.fst
       else []) := by
  rw [buildPrefs, (withHoaPref_other _ _).2, (withIdealBaths_other _ _).2,
    (withIdealBeds_other _ _).2, (withIdealSqft_other _ _).2,
    (withIdealPrice_other _ _).2, withNeighborhoodStats]
  split_ifs <;> rfl

/-- The neighborhood counts dict of a run. -/
def runCounts (nearby : ℚ → ℚ → ℚ → List String)
    (favorites : List (String × Listing)) : List (String × ℕ) :=
  countsOf (collectNeighborhoods nearby favorites)

/-- A geo collaborator reporting no nearby neighborhoods. -/
def nearby0 : ℚ → ℚ → ℚ → List String := fun _ _ _ => []

/-- The C4 scenario: ten favorites, seven in Zilker and three in
Mueller, none exposing coordinates (so no geo-nearby spillover). -/
def c4favorites : List (String × Listing) := [
  (("f1"), { neighborhood := some ("Zilker") }),
  (("f2"), { neighborhood := some ("Zilker") }),
  (("f3"), { neighborhood := some ("Zilker") }),
  (("f4"), { neighborhood := some ("Zilker") }),
  (("f5"), { neighborhood := some ("Zilker") }),
  (("f6"), { neighborhood := some ("Zilker") }),
  (("f7"), { neighborhood := some ("Zilker") }),
  (("f8"), { neighborhood := some ("Mueller") }),
  (("f9"), { neighborhood := some ("Mueller") }),
  (("f10"), { neighborhood := some ("Mueller") })]

/-- C4: when some favorite exposes a neighborhood, every derived
statistical weight is `1.0 + (count / max_count) * 0.5` and lies in
`[1.0, 1.5]`, the preferred list is the top 5 neighborhoods by count
(stable sort, ties in input iteration order); and the 7-Zilker /
3-Mueller scenario yields weights `3/2` and `17/14` (= 1.2142…) with
preferred list `[Zilker, Mueller]`. -/
theorem C4_statistical_weights (nearby : ℚ → ℚ → ℚ → List String)
    (favorites : List (String × Listing))
    (h : collectNeighborhoods nearby favorites ≠ []) :
    (update_preferences_from_favorites nearby favorites).neighborhood_weights =
      (runCounts nearby favorites).map
        (fun nc => (nc.1, 1 + ((nc.2 : ℚ) / (maxCount (runCounts nearby favorites) : ℚ)) * 0.5)) ∧
    (∀ w ∈ (update_preferences_from_favorites nearby favorites).neighborhood_weights,
      1 ≤ w.2 ∧ w.2 ≤ 1.5) ∧
    (update_preferences_from_favorites nearby favorites).preferred_neighborhoods =
      ((sortCountsDesc (runCounts nearby favorites)).take 5).map Prod.fst ∧
    (update_preferences_from_favorites nearby0 c4favorites).neighborhood_weights =
      [(("Zilker" : String), (3 / 2 : ℚ)), (("Mueller" : String), (17 / 14 : ℚ))] ∧
    (update_preferences_from_favorites nearby0 c4favorites).preferred_neighborhoods =
      [("Zilker"), ("Mueller")] := by
  have hfav : favorites ≠ [] := by
    intro hf
    apply h
    rw [hf]
    rfl
  have hcounts : countsOf (collectNeighborhoods nearby favorites) ≠ [] :=
    countsOf_ne_nil _ h
  have hw : (update_preferences_from_favorites nearby favorites).neighborhood_weights =
      (runCounts nearby favorites).map
        (fun nc => (nc.1, 1 + ((nc.2 : ℚ) / (maxCount (runCounts nearby favorites) : ℚ)) * 0.5)) := by
    rw [update_preferences_from_favorites, if_neg hfav, buildPrefs_weights,
      if_pos hcounts]
    rfl
  refine ⟨hw, ?_, ?_, ?_, ?_⟩
  · intro w hwmem
    rw [hw] at hwmem
    obtain ⟨nc, hnc, rfl⟩ := List.mem_map.mp hwmem
    have h1 : 1 ≤ nc.2 := countsOf_pos _ nc hnc
    have h2 : nc.2 ≤ maxCount (runCounts nearby favorites) :=
      le_maxCount _ nc hnc
    have hM : 1 ≤ maxCount (runCounts nearby favorites) :=
      maxCount_pos _ hcounts (countsOf_pos _)
    have hM0 : (0 : ℚ) < (maxCount (runCounts nearby favorites) : ℚ) := by
      exact_mod_cast hM
    have hfrac0 : (0 : ℚ) ≤ (nc.2 : ℚ) / (maxCount (runCounts nearby favorites) : ℚ) :=
      div_nonneg (by positivity) (le_of_lt hM0)
    have hfrac1 : (nc.2 : ℚ) / (maxCount (runCounts nearby favorites) : ℚ) ≤ 1 := by
      rw [div_le_one hM0]
      exact_mod_cast h2
    constructor
    · simp only
      nlinarith
    · simp only
      nlinarith
  · rw [update_preferences_from_favorites, if_neg hfav, buildPrefs_preferred,
      if_pos hcounts]
    rfl
  · have hc : countsOf (collectNeighborhoods nearby0 c4favorites) =
        [(("Zilker" : String), 7), (("Mueller" : String), 3)] := by decide
    rw [update_preferences_from_favorites, if_neg (by decide), buildPrefs_weights]
    rw [if_pos (by decide : countsOf (collectNeighborhoods nearby0 c4favorites) ≠ [])]
    rw [hc]
    norm_num [maxCount]
  · rw [update_preferences_from_favorites, if_neg (by decide), buildPrefs_preferred]
    rw [if_pos (by decide : countsOf (collectNeighborhoods nearby0 c4favorites) ≠ [])]
    decide

/-- Witness for C4 at the Zilker/Mueller scenario. -/
theorem C4_witness :
    (update_preferences_from_favorites nearby0 c4favorites).preferred_neighborhoods =
      [("Zilker"), ("Mueller")] :=
  (C4_statistical_weights nearby0 c4favorites (by decide)).2.2.2.2

/-! ### Selection lemmas (for C1, C2, C3) -/

instance scoreDescIsTotal (score : Listing → ℚ) :
    IsTotal Listing (fun a b => score b ≤ score a) :=
  ⟨fun a b => le_total (score b) (score a)⟩

instance scoreDescIsTrans (score : Listing → ℚ) :
    IsTrans Listing (fun a b => score b ≤ score a) :=
  ⟨fun _ _ _ h1 h2 => le_trans h2 h1⟩

instance scoreAscIsTotal (score : Listing → ℚ) :
    IsTotal Listing (fun a b => score a ≤ score b) :=
  ⟨fun a b => le_total (score a) (score b)⟩

instance scoreAscIsTrans (score : Listing → ℚ) :
    IsTrans Listing (fun a b => score a ≤ score b) :=
  ⟨fun _ _ _ h1 h2 => le_trans h1 h2⟩

/-- A descending sort is a permutation of its input. -/
theorem sortDescBy_perm (key : Listing → ℚ) (l : List Listing) :
    List.Perm (sortDescBy key l) l :=
  List.perm_insertionSort _ l

/-- An ascending sort is a permutation of its input. -/
theorem sortAscBy_perm (key : Listing → ℚ) (l : List Listing) :
    List.Perm (sortAscBy key l) l :=
  List.perm_insertionSort _ l

/-- A descending sort is sorted descending. -/
theorem sortDescBy_sorted (key : Listing → ℚ) (l : List Listing) :
    (sortDescBy key l).Sorted (fun a b => key b ≤ key a) :=
  List.sorted_insertionSort _ l

/-- An ascending sort is sorted ascending. -/
theorem sortAscBy_sorted (key : Listing → ℚ) (l : List Listing) :
    (sortAscBy key l).Sorted (fun a b => key a ≤ key b) :=
  List.sorted_insertionSort _ l

/-- The head of a non-empty descending sort has maximal key. -/
theorem sortDescBy_head_max (key : Listing → ℚ) (l : List Listing)
    (b : Listing) (rest : List Listing) (h : sortDescBy key l = b :: rest) :
    ∀ x ∈ l, key x ≤ key b := by
  intro x hx
  have hmem : x ∈ b :: rest := by
    rw [← h]
    exact ((sortDescBy_perm key l).mem_iff).mpr hx
  rcases List.mem_cons.mp hmem with hmem | hmem
  · exact le_of_eq (by rw [hmem])
  · have hs := sortDescBy_sorted key l
    rw [h] at hs
    exact List.rel_of_sorted_cons hs x hmem

/-- The head of a non-empty ascending sort has minimal key. -/
theorem sortAscBy_head_min (key : Listing → ℚ) (l : List Listing)
    (b : Listing) (rest : List Listing) (h : sortAscBy key l = b :: rest) :
    ∀ x ∈ l, key b ≤ key x := by
  intro x hx
  have hmem : x ∈ b :: rest := by
    rw [← h]
    exact ((sortAscBy_perm key l).mem_iff).mpr hx
  rcases List.mem_cons.mp hmem with hmem | hmem
  · exact le_of_eq (by rw [hmem])
  · have hs := sortAscBy_sorted key l
    rw [h] at hs
    exact List.rel_of_sorted_cons hs x hmem

/-- Membership in the under-a-million bucket. -/
theorem mem_under1m (x : Listing) (ls : List Listing) :
    x ∈ under1m ls ↔ x ∈ ls ∧ pyOr x.price 0 < 1000000 := by
  simp [under1m, List.mem_filter]

/-- Membership in the at-least-a-million bucket. -/
theorem mem_over1m (x : Listing) (ls : List Listing) :
    x ∈ over1m ls ↔ x ∈ ls ∧ 1000000 ≤ pyOr x.price 0 := by
  simp [over1m, List.mem_filter]

/-- The two buckets partition the candidate list by length. -/
theorem under_over_length (ls : List Listing) :
    (under1m ls).length + (over1m ls).length = ls.length := by
  induction ls with
  | nil => rfl
  | cons a t ih =>
    simp only [under1m, over1m, List.filter_cons] at ih ⊢
    by_cases h : pyOr a.price 0 < 1000000
    · simp [h, not_le.mpr h]
      omega
    · simp [h, le_of_not_lt h]
      omega

/-- Sorting preserves length. -/
theorem sortDescBy_length (key : Listing → ℚ) (l : List Listing) :
    (sortDescBy key l).length = l.length :=
  (sortDescBy_perm key l).length_eq

/-- Sorting preserves length. -/
theorem sortAscBy_length (key : Listing → ℚ) (l : List Listing) :
    (sortAscBy key l).length = l.length :=
  (sortAscBy_perm key l).length_eq

/-- The quota pick takes `min 4` under plus `min 1` over. -/
theorem quotaPick_length (score : Listing → ℚ) (nl : List Listing) :
    (quotaPick score nl).length =
      min 4 (under1m nl).length + min 1 (over1m nl).length := by
  rw [quotaPick, List.length_append, List.length_take, List.length_take,
    sortDescBy_length, sortDescBy_length]

/-- Quota-picked listings come from the candidate list. -/
theorem mem_quotaPick (score : Listing → ℚ) (nl : List Listing) (x : Listing)
    (hx : x ∈ quotaPick score nl) : x ∈ nl := by
  rcases List.mem_append.mp hx with hx | hx
  · exact ((mem_under1m x nl).mp
      ((sortDescBy_perm _ _).mem_iff.mp ((List.take_sublist _ _).subset hx))).1
  · exact ((mem_over1m x nl).mp
      ((sortDescBy_perm _ _).mem_iff.mp ((List.take_sublist _ _).subset hx))).1

/-- Backfill-pool listings come from the candidate list. -/
theorem mem_backfillPool (score : Listing → ℚ) (nl : List Listing) (x : Listing)
    (hx : x ∈ backfillPool score nl) : x ∈ nl := by
  rw [backfillPool] at hx
  rcases List.mem_append.mp (List.mem_of_mem_filter hx) with hx | hx
  · exact ((mem_under1m x nl).mp
      ((sortDescBy_perm _ _).mem_iff.mp ((List.drop_sublist _ _).subset hx))).1
  · exact ((mem_over1m x nl).mp
      ((sortDescBy_perm _ _).mem_iff.mp ((List.drop_sublist _ _).subset hx))).1

/-- On duplicate-free candidates the backfill filter removes nothing:
dropped under-bucket listings cannot re-occur among the taken ones (the
sorted bucket is duplicate-free) nor in the other bucket (the price
predicates exclude each other). -/
theorem backfillPool_eq_of_nodup (score : Listing → ℚ) (nl : List Listing)
    (h : nl.Nodup) :
    backfillPool score nl =
      (sortDescBy score (under1m nl)).drop 4
        ++ (sortDescBy score (over1m nl)).drop 1 := by
  have hU : (sortDescBy score (under1m nl)).Nodup :=
    ((sortDescBy_perm _ _).nodup_iff).mpr (h.filter _)
  have hO : (sortDescBy score (over1m nl)).Nodup :=
    ((sortDescBy_perm _ _).nodup_iff).mpr (h.filter _)
  rw [backfillPool]
  apply List.filter_eq_self.mpr
  intro x hx
  simp only [decide_eq_true_eq]
  intro hmem
  rcases List.mem_append.mp hx with hx | hx <;>
    rcases List.mem_append.mp hmem with hm | hm
  · exact (List.disjoint_take_drop hU le_rfl) hm hx
  · have h1 : pyOr x.price 0 < 1000000 := ((mem_under1m x nl).mp
      ((sortDescBy_perm _ _).mem_iff.mp ((List.drop_sublist _ _).subset hx))).2
    have h2 : (1000000 : ℚ) ≤ pyOr x.price 0 := ((mem_over1m x nl).mp
      ((sortDescBy_perm _ _).mem_iff.mp ((List.take_sublist _ _).subset hm))).2
    linarith
  · have h1 : (1000000 : ℚ) ≤ pyOr x.price 0 := ((mem_over1m x nl).mp
      ((sortDescBy_perm _ _).mem_iff.mp ((List.drop_sublist _ _).subset hx))).2
    have h2 : pyOr x.price 0 < 1000000 := ((mem_under1m x nl).mp
      ((sortDescBy_perm _ _).mem_iff.mp ((List.take_sublist _ _).subset hm))).2
    linarith
  · exact (List.disjoint_take_drop hO le_rfl) hm hx

/-- On duplicate-free candidates the quota-plus-backfill selection has
exactly `min MAX_LISTINGS n` listings. -/
theorem pickTop_length (score : Listing → ℚ) (nl : List Listing) (h : nl.Nodup) :
    (pickTop score nl).length = min MAX_LISTINGS nl.length := by
  have hq := quotaPick_length score nl
  have hpart := under_over_length nl
  rw [pickTop]
  by_cases hrem : MAX_LISTINGS - (quotaPick score nl).length > 0
  · rw [if_pos hrem, List.length_append, List.length_take,
      backfillPool_eq_of_nodup score nl h, List.length_append, List.length_drop,
      List.length_drop, sortDescBy_length, sortDescBy_length]
    rw [hq] at hrem ⊢
    rw [MAX_LISTINGS] at hrem ⊢
    omega
  · rw [if_neg hrem]
    rw [hq] at hrem ⊢
    rw [MAX_LISTINGS] at hrem ⊢
    omega

/-- Selected listings come from the candidate list. -/
theorem mem_pickTop (score : Listing → ℚ) (nl : List Listing) (x : Listing)
    (hx : x ∈ pickTop score nl) : x ∈ nl := by
  rw [pickTop] at hx
  split_ifs at hx
  · rcases List.mem_append.mp hx with hx | hx
    · exact mem_quotaPick _ _ _ hx
    · exact mem_backfillPool _ _ _ ((List.take_sublist _ _).subset hx)
  · exact mem_quotaPick _ _ _ hx

/-- The preferred-neighborhood swap never changes the size of the
selection. -/
theorem swapPreferred_length (score : Listing → ℚ) (preferred : List String)
    (nl top : List Listing) :
    (swapPreferred score preferred nl top).length = top.length := by
  rw [swapPreferred]
  split_ifs
  · rfl
  · rfl
  · rcases hc : sortDescBy score
        (nl.filter fun l => inPreferred preferred l ∧ l ∉ top) with _ | ⟨best, bs⟩ <;>
      rcases ht : sortAscBy score top with _ | ⟨w, rest⟩ <;>
        simp only [hc, ht]
    have hlen := sortAscBy_length score top
    rw [ht] at hlen
    simp only [List.length_cons] at hlen ⊢
    omega

/-- Post-swap listings come from the old selection or the candidates. -/
theorem mem_swapPreferred (score : Listing → ℚ) (preferred : List String)
    (nl top : List Listing) (x : Listing)
    (hx : x ∈ swapPreferred score preferred nl top) : x ∈ top ∨ x ∈ nl := by
  rw [swapPreferred] at hx
  split_ifs at hx
  · exact Or.inl hx
  · exact Or.inl hx
  · rcases hc : sortDescBy score
        (nl.filter fun l => inPreferred preferred l ∧ l ∉ top) with _ | ⟨best, bs⟩ <;>
      rcases ht : sortAscBy score top with _ | ⟨w, rest⟩ <;>
        simp only [hc, ht] at hx
    · exact Or.inl hx
    · exact Or.inl hx
    · exact Or.inl hx
    · rcases List.mem_cons.mp hx with hx | hx
      · subst hx
        have hb : x ∈ sortDescBy score
            (nl.filter fun l => inPreferred preferred l ∧ l ∉ top) := by
          rw [hc]
          exact List.mem_cons_self _ _
        exact Or.inr (List.mem_of_mem_filter ((sortDescBy_perm _ _).mem_iff.mp hb))
      · have hw : x ∈ sortAscBy score top := by
          rw [ht]
          exact List.mem_cons_of_mem _ hx
        exact Or.inl ((sortAscBy_perm _ _).mem_iff.mp hw)

/-- Length of the complete selection pipeline on duplicate-free
candidates. -/
theorem selectShortlist_length (score : Listing → ℚ) (preferred : List String)
    (nl : List Listing) (h : nl.Nodup) :
    (selectShortlist score preferred nl).length = min MAX_LISTINGS nl.length := by
  rw [selectShortlist, sortDescBy_length, swapPreferred_length,
    pickTop_length score nl h]

/-- Every listing of the final shortlist is one of the candidates. -/
theorem mem_selectShortlist (score : Listing → ℚ) (preferred : List String)
    (nl : List Listing) (x : Listing)
    (hx : x ∈ selectShortlist score preferred nl) : x ∈ nl := by
  rw [selectShortlist] at hx
  rcases mem_swapPreferred _ _ _ _ x ((sortDescBy_perm _ _).mem_iff.mp hx) with h | h
  · exact mem_pickTop _ _ _ h
  · exact h

/-! ### C1: shortlist size -/

/-- C1: on a run whose eligible candidates are pairwise distinct, the
final shortlist has exactly `min (MAX_LISTINGS, number of candidates)`
entries; the preferred-neighborhood swap never changes a selection's
size; and whenever the 4+1 quota pick is under-filled, the backfill
pool being drawn from is in descending score order. -/
theorem C1_selection_size (config : Config) (preferences : Preferences)
    (favoriteZpids dismissedZpids : List String) (filtered : List Listing)
    (h : (eligibleListings favoriteZpids dismissedZpids filtered).Nodup) :
    (selectFromRun config preferences favoriteZpids dismissedZpids filtered).length =
      min MAX_LISTINGS (eligibleListings favoriteZpids dismissedZpids filtered).length ∧
    (∀ (score : Listing → ℚ) (preferred : List String) (newListings top : List Listing),
      (swapPreferred score preferred newListings top).length = top.length) ∧
    (∀ (score : Listing → ℚ) (newListings : List Listing), newListings.Nodup →
      (quotaPick score newListings).length < MAX_LISTINGS →
      (backfillPool score newListings).Sorted (fun a b => score b ≤ score a)) := by
  refine ⟨selectShortlist_length _ _ _ h, swapPreferred_length, ?_⟩
  intro score newListings hnd hlt
  rw [backfillPool_eq_of_nodup _ _ hnd]
  rw [quotaPick_length, MAX_LISTINGS] at hlt
  have hcase : (under1m newListings).length < 4 ∨ (over1m newListings).length < 1 := by
    omega
  rcases hcase with hu | ho
  · have hdU : (sortDescBy score (under1m newListings)).drop 4 = [] :=
      List.drop_eq_nil_of_le (by rw [sortDescBy_length]; omega)
    rw [hdU, List.nil_append]
    exact List.Pairwise.sublist (List.drop_sublist _ _) (sortDescBy_sorted _ _)
  · have hO : over1m newListings = [] :=
      List.length_eq_zero.mp (by omega)
    have hdO : (sortDescBy score (over1m newListings)).drop 1 = [] := by
      rw [hO]
      rfl
    rw [hdO, List.append_nil]
    exact List.Pairwise.sublist (List.drop_sublist _ _) (sortDescBy_sorted _ _)

/-- Concrete candidates for the C1 witness. -/
def c1filtered : List Listing := [
  { zpid := some ("a"), price := some 500000 },
  { zpid := some ("b"), price := some 1200000 }]

/-- Witness for C1: two distinct eligible candidates yield a shortlist
of size `min 5 2`. -/
theorem C1_witness :
    (eligibleListings [] [] c1filtered).Nodup ∧
    (selectFromRun {} {} [] [] c1filtered).length =
      min MAX_LISTINGS (eligibleListings [] [] c1filtered).length :=
  ⟨by decide, (C1_selection_size {} {} [] [] c1filtered (by decide)).1⟩

/-! ### C2: the preferred-neighborhood swap -/

/-- C2: for a non-empty selection, the swap happens exactly when the
preferred list is non-empty, no selected listing matches it, and some
candidate outside the selection does.  When it does not trigger the
selection is returned unchanged; when it triggers, exactly one member
— one of minimal final score — is replaced by a preferred-neighborhood
candidate of maximal score among the eligible preferred candidates,
and the new selection contains a preferred-neighborhood listing. -/
theorem C2_preferred_swap (score : Listing → ℚ) (preferred : List String)
    (newListings top : List Listing) (htop : top ≠ []) :
    (¬ (preferred ≠ [] ∧ top.any (inPreferred preferred) = false ∧
        newListings.filter (fun l => inPreferred preferred l ∧ l ∉ top) ≠ []) →
      swapPreferred score preferred newListings top = top) ∧
    ((preferred ≠ [] ∧ top.any (inPreferred preferred) = false ∧
        newListings.filter (fun l => inPreferred preferred l ∧ l ∉ top) ≠ []) →
      ∃ best rest worst,
        swapPreferred score preferred newListings top = best :: rest ∧
        List.Perm top (worst :: rest) ∧
        worst ∈ top ∧ (∀ t ∈ top, score worst ≤ score t) ∧
        best ∈ newListings ∧ best ∉ top ∧ inPreferred preferred best = true ∧
        (∀ c ∈ newListings.filter (fun l => inPreferred preferred l ∧ l ∉ top),
          score c ≤ score best) ∧
        (swapPreferred score preferred newListings top).any
          (inPreferred preferred) = true) := by
  constructor
  · intro hneg
    rw [swapPreferred]
    by_cases h1 : preferred = []
    · rw [if_pos h1]
    · rw [if_neg h1]
      by_cases h2 : top.any (inPreferred preferred) = true
      · rw [if_pos h2]
      · rw [if_neg h2]
        have hc : newListings.filter (fun l => inPreferred preferred l ∧ l ∉ top) = [] := by
          by_contra hcne
          exact hneg ⟨h1, by simpa using h2, hcne⟩
        have hsort : sortDescBy score
            (newListings.filter (fun l => inPreferred preferred l ∧ l ∉ top)) = [] := by
          rw [hc]
          rfl
        simp only [hsort]
  · rintro ⟨h1, h2, h3⟩
    obtain ⟨best, bs, hc⟩ : ∃ best bs, sortDescBy score
        (newListings.filter (fun l => inPreferred preferred l ∧ l ∉ top)) = best :: bs := by
      rcases hcs : sortDescBy score
          (newListings.filter (fun l => inPreferred preferred l ∧ l ∉ top)) with _ | ⟨b, bs⟩
      · exfalso
        apply h3
        have hperm := sortDescBy_perm score
          (newListings.filter (fun l => inPreferred preferred l ∧ l ∉ top))
        rw [hcs] at hperm
        exact (hperm.symm).eq_nil
      · exact ⟨b, bs, rfl⟩
    obtain ⟨w, rest, ht⟩ : ∃ w rest, sortAscBy score top = w :: rest := by
      rcases hts : sortAscBy score top with _ | ⟨w, rest⟩
      · exfalso
        apply htop
        have hperm := sortAscBy_perm score top
        rw [hts] at hperm
        exact (hperm.symm).eq_nil
      · exact ⟨w, rest, rfl⟩
    have hres : swapPreferred score preferred newListings top = best :: rest := by
      rw [swapPreferred, if_neg h1, if_neg (by simp [h2])]
      simp only [hc, ht]
    have hbestmem : best ∈ newListings.filter
        (fun l => inPreferred preferred l ∧ l ∉ top) :=
      (sortDescBy_perm _ _).mem_iff.mp (by rw [hc]; exact List.mem_cons_self _ _)
    have hbestprop := List.mem_filter.mp hbestmem
    have hbest2 : inPreferred preferred best = true ∧ best ∉ top := by
      simpa using hbestprop.2
    refine ⟨best, rest, w, hres, ?_, ?_, ?_, hbestprop.1, hbest2.2, hbest2.1, ?_, ?_⟩
    · have hperm := (sortAscBy_perm score top).symm
      rw [ht] at hperm
      exact hperm
    · exact (sortAscBy_perm score top).mem_iff.mp
        (by rw [ht]; exact List.mem_cons_self _ _)
    · exact sortAscBy_head_min score top w rest ht
    · exact sortDescBy_head_max score _ best bs hc
    · rw [hres]
      simp [hbest2.1]

/-- The selection of the C2 witness: it already contains a listing in
the preferred neighborhood, so the swap must not trigger. -/
def c2top : List Listing := [{ zpid := some ("t"), neighborhood := some ("Zilker") }]

/-- Witness for C2: with a preferred match already selected the swap
returns the selection unchanged. -/
theorem C2_witness :
    c2top ≠ [] ∧ swapPreferred (fun _ => 0) ["Zilker"] c2top c2top = c2top :=
  ⟨by decide, (C2_preferred_swap (fun _ => 0) ["Zilker"] c2top c2top (by decide)).1
    (by decide)⟩

/-! ### C3: the shortlist never contains favorites or dismissed -/

/-- C3: every listing of the run's final shortlist is one of the
eligible candidates (the swap included, which draws only from the
filtered pool), and hence its identifier is neither favorited nor
dismissed. -/
theorem C3_excludes_favorites_dismissed (config : Config)
    (preferences : Preferences) (favoriteZpids dismissedZpids : List String)
    (filtered : List Listing) :
    (∀ l ∈ selectFromRun config preferences favoriteZpids dismissedZpids filtered,
      l ∈ eligibleListings favoriteZpids dismissedZpids filtered) ∧
    (∀ l ∈ selectFromRun config preferences favoriteZpids dismissedZpids filtered,
      ∀ z, l.zpid = some z → z ∉ favoriteZpids ∧ z ∉ dismissedZpids) := by
  have hsub : ∀ l ∈ selectFromRun config preferences favoriteZpids dismissedZpids
      filtered, l ∈ eligibleListings favoriteZpids dismissedZpids filtered :=
    fun l hl => mem_selectShortlist _ _ _ l hl
  refine ⟨hsub, ?_⟩
  intro l hl z hz
  have hcond := (List.mem_filter.mp (hsub l hl)).2
  rw [hz] at hcond
  simp only [decide_eq_true_eq] at hcond
  exact ⟨hcond.2.1, hcond.2.2⟩

/-- The filtered candidate of the C3 witness. -/
def c3filtered : List Listing := [{ zpid := some ("a") }]

/-- Witness for C3: the single selected listing's identifier avoids the
favorites `["f"]` and the dismissed `["d"]`. -/
theorem C3_witness :
    ({ zpid := some ("a") } : Listing) ∈ selectFromRun {} {} ["f"] ["d"] c3filtered ∧
    ("a" ∉ (["f"] : List String) ∧ "a" ∉ (["d"] : List String)) := by
  have hmem : ({ zpid := some ("a") } : Listing) ∈
      selectFromRun {} {} ["f"] ["d"] c3filtered := by
    norm_num [selectFromRun, selectShortlist, swapPreferred, pickTop, quotaPick,
      backfillPool, under1m, over1m, sortDescBy, sortAscBy, eligibleListings,
      inPreferred, pyOr, MAX_LISTINGS, List.insertionSort, List.filter, c3filtered,
      get_default_preferences]
  exact ⟨hmem, (C3_excludes_favorites_dismissed {} {} ["f"] ["d"] c3filtered).2
    _ hmem ("a") rfl⟩

/-! ### C9: guarded divisions and the feedback-parsing crash

Checked (`Option`-valued) variants of the scoring, boost and
derivation functions, in which every division site fails on a zero
divisor and Python's `max()` fails on an empty collection, exactly as
the corresponding runtime operations would.  `none` models an escaped
exception.  The totality theorems below show these checked variants
always succeed and agree with the total embedding — every division of
the source is guarded.  `parse_feedback`, by contrast, *can* raise:
`float("")` on the input `"max $,"`. -/

/-- A division site: fails on a zero divisor. -/
def qdivChecked (a b : ℚ) : Option ℚ := if b = 0 then none else some (a / b)

/-- `priceFactor` with its division checked. -/
def priceFactorChecked (listing : Listing) (prefs : Preferences) : Option ℚ :=
  match listing.price, prefs.ideal_price with
  | some price, some ideal =>
    if price ≠ 0 ∧ ideal ≠ 0 then
      match qdivChecked |price - ideal| ideal with
      | some price_diff_pct =>
        some (if price_diff_pct < 0.1 then 1.2
          else if price_diff_pct < 0.2 then 1.1
          else if price_diff_pct > 0.5 then 0.9 else 1)
      | none => none
    else some 1
  | _, _ => some 1

/-- `sqftFactor` with its division checked. -/
def sqftFactorChecked (listing : Listing) (prefs : Preferences) : Option ℚ :=
  match listing.sqft, prefs.ideal_sqft with
  | some sqft, some ideal =>
    if sqft ≠ 0 ∧ ideal ≠ 0 then
      match qdivChecked |sqft - ideal| ideal with
      | some d => some (if d < 0.15 then 1.1 else 1)
      | none => none
    else some 1
  | _, _ => some 1

/-- `calculate_preference_boost` with all divisions checked (the other
four factors contain no division). -/
def calculate_preference_boost_checked (listing : Listing)
    (prefs : Preferences) : Option ℚ :=
  match priceFactorChecked listing prefs, sqftFactorChecked listing prefs with
  | some pf, some sf =>
    some (1 * neighborhoodFactor listing prefs * pf * sf
      * bedsFactor listing prefs * bathsFactor listing prefs
      * hoaFactor listing prefs)
  | _, _ => none

/-- `distanceScore` with its division checked. -/
def distanceScoreChecked (listing : Listing) : Option ℚ :=
  match listing.distance with
  | some d =>
    match qdivChecked d 20 with
    | some q => some (max 0 (100 - q * 100))
    | none => none
  | none => some 50

/-- `priceScore` with its division checked. -/
def priceScoreChecked (listing : Listing) (config : Config) : Option ℚ :=
  let price := pyOr listing.price 0
  let min_price := pyOr config.min_price 0
  let max_price := pyOr config.max_price (price * 2)
  if min_price < max_price then
    match qdivChecked (price - min_price) (max_price - min_price) with
    | some q => some (max 0 (min 100 (100 - q * 100)))
    | none => none
  else some 50

/-- `newnessScore` with its division checked. -/
def newnessScoreChecked (listing : Listing) : Option ℚ :=
  match qdivChecked (pyOr listing.days_on_market 30) 60 with
  | some q => some (max 0 (100 - q * 100))
  | none => none

/-- `calculate_relevance_score` with all divisions checked. -/
def calculate_relevance_score_checked (listing : Listing) (config : Config)
    (preferences : Preferences) : Option ℚ :=
  match distanceScoreChecked listing, priceScoreChecked listing config,
      newnessScoreChecked listing,
      calculate_preference_boost_checked listing preferences with
  | some ds, some ps, some ns, some boost =>
    some ((0.4 * ds + 0.3 * ps + 0.3 * ns) * boost)
  | _, _, _, _ => none

/-- Python `max(values)`: fails on an empty collection. -/
def maxValsChecked (counts : List (String × ℕ)) : Option ℕ :=
  if counts = [] then none else some (maxCount counts)

/-- The weights dict comprehension with each division checked. -/
def weightsChecked (m : ℕ) : List (String × ℕ) → Option (List (String × ℚ))
  | [] => some []
  | nc :: rest =>
    match qdivChecked (nc.2 : ℚ) (m : ℚ), weightsChecked m rest with
    | some q, some ws => some ((nc.1, 1 + q * 0.5) :: ws)
    | _, _ => none

/-- The neighborhood-stats block with `max()` and divisions checked. -/
def withNeighborhoodStatsChecked (ns : List String) (prefs : Preferences) :
    Option Preferences :=
  if countsOf ns ≠ [] then
    match maxValsChecked (countsOf ns) with
    | some m =>
      match weightsChecked m (countsOf ns) with
      | some ws =>
        some ({ prefs with
                neighborhood_weights := ws,
                preferred_neighborhoods :=
                  ((sortCountsDesc (countsOf ns)).take 5).map Prod.fst })
      | none => none
    | none => none
  else some prefs

/-- The ideal-price block with its mean division checked. -/
def withIdealPriceChecked (xs : List ℚ) (prefs : Preferences) :
    Option Preferences :=
  if xs ≠ [] then
    match qdivChecked xs.sum (xs.length : ℚ) with
    | some m => some { prefs with ideal_price := some m, price_history := lastTen xs }
    | none => none
  else some prefs

/-- The ideal-sqft block with its mean division checked. -/
def withIdealSqftChecked (xs : List ℚ) (prefs : Preferences) :
    Option Preferences :=
  if xs ≠ [] then
    match qdivChecked xs.sum (xs.length : ℚ) with
    | some m => some { prefs with ideal_sqft := some m, sqft_history := lastTen xs }
    | none => none
  else some prefs

/-- The ideal-beds block with its mean division checked. -/
def withIdealBedsChecked (xs : List ℚ) (prefs : Preferences) :
    Option Preferences :=
  if xs ≠ [] then
    match qdivChecked xs.sum (xs.length : ℚ) with
    | some m => some { prefs with ideal_beds := some m, beds_history := lastTen xs }
    | none => none
  else some prefs

/-- The ideal-baths block with its mean division checked. -/
def withIdealBathsChecked (xs : List ℚ) (prefs : Preferences) :
    Option Preferences :=
  if xs ≠ [] then
    match qdivChecked xs.sum (xs.length : ℚ) with
    | some m => some { prefs with ideal_baths := some m, baths_history := lastTen xs }
    | none => none
  else some prefs

/-- `update_preferences_from_favorites` with all division and `max()`
sites checked (the HOA block contains neither). -/
def update_preferences_checked (nearby : ℚ → ℚ → ℚ → List String)
    (favorites : List (String × Listing)) : Option Preferences :=
  if favorites = [] then some get_default_preferences
  else
    (withNeighborhoodStatsChecked (collectNeighborhoods nearby favorites)
        get_default_preferences).bind
      (fun p => (withIdealPriceChecked (collectField Listing.price favorites) p).bind
        (fun p => (withIdealSqftChecked (collectField Listing.sqft favorites) p).bind
          (fun p => (withIdealBedsChecked (collectField Listing.beds favorites) p).bind
            (fun p => (withIdealBathsChecked (collectField Listing.baths favorites) p).map
              (fun p => withHoaPref (collectHoa favorites) p)))))

/-- A guarded division never fails. -/
theorem qdivChecked_of_ne (a b : ℚ) (h : b ≠ 0) :
    qdivChecked a b = some (a / b) := if_neg h

/-- The checked price factor always succeeds. -/
theorem priceFactorChecked_eq (l : Listing) (p : Preferences) :
    priceFactorChecked l p = some (priceFactor l p) := by
  rcases hp : l.price with _ | q <;> rcases hi : p.ideal_price with _ | i <;>
    simp only [priceFactorChecked, priceFactor, hp, hi]
  by_cases h : q ≠ 0 ∧ i ≠ 0
  · rw [if_pos h, if_pos h, qdivChecked_of_ne _ _ h.2]
  · rw [if_neg h, if_neg h]

/-- The checked sqft factor always succeeds. -/
theorem sqftFactorChecked_eq (l : Listing) (p : Preferences) :
    sqftFactorChecked l p = some (sqftFactor l p) := by
  rcases hp : l.sqft with _ | q <;> rcases hi : p.ideal_sqft with _ | i <;>
    simp only [sqftFactorChecked, sqftFactor, hp, hi]
  by_cases h : q ≠ 0 ∧ i ≠ 0
  · rw [if_pos h, if_pos h, qdivChecked_of_ne _ _ h.2]
  · rw [if_neg h, if_neg h]

/-- The checked boost always succeeds and agrees with the embedding. -/
theorem boost_checked_eq (l : Listing) (p : Preferences) :
    calculate_preference_boost_checked l p =
      some (calculate_preference_boost l p) := by
  rw [calculate_preference_boost_checked, priceFactorChecked_eq,
    sqftFactorChecked_eq]
  rfl

/-- The checked distance sub-score always succeeds. -/
theorem distanceScoreChecked_eq (l : Listing) :
    distanceScoreChecked l = some (distanceScore l) := by
  rcases hd : l.distance with _ | d <;>
    simp [distanceScoreChecked, distanceScore, hd, qdivChecked]

/-- The checked price sub-score always succeeds. -/
theorem priceScoreChecked_eq (l : Listing) (c : Config) :
    priceScoreChecked l c = some (priceScore l c) := by
  rw [priceScoreChecked, priceScore]
  by_cases h : pyOr c.min_price 0 < pyOr c.max_price (pyOr l.price 0 * 2)
  · rw [if_pos h, if_pos h, qdivChecked_of_ne _ _ (sub_ne_zero.mpr (ne_of_gt h))]
  · rw [if_neg h, if_neg h]

/-- The checked newness sub-score always succeeds. -/
theorem newnessScoreChecked_eq (l : Listing) :
    newnessScoreChecked l = some (newnessScore l) := by
  rw [newnessScoreChecked, newnessScore, qdivChecked_of_ne _ _ (by norm_num)]

/-- The checked relevance score always succeeds. -/
theorem relevance_checked_eq (l : Listing) (c : Config) (p : Preferences) :
    calculate_relevance_score_checked l c p =
      some (calculate_relevance_score l c p) := by
  rw [calculate_relevance_score_checked, distanceScoreChecked_eq,
    priceScoreChecked_eq, newnessScoreChecked_eq, boost_checked_eq]
  rfl

/-- The checked weights comprehension succeeds for a nonzero maximum. -/
theorem weightsChecked_eq (m : ℕ) (hm : m ≠ 0) (counts : List (String × ℕ)) :
    weightsChecked m counts =
      some (counts.map (fun nc => (nc.1, 1 + ((nc.2 : ℚ) / (m : ℚ)) * 0.5))) := by
  have hm' : (m : ℚ) ≠ 0 := Nat.cast_ne_zero.mpr hm
  induction counts with
  | nil => rfl
  | cons nc rest ih =>
    rw [weightsChecked, qdivChecked_of_ne _ _ hm', ih]
    rfl

/-- The checked neighborhood-stats block always succeeds. -/
theorem withNeighborhoodStatsChecked_eq (ns : List String) (p : Preferences) :
    withNeighborhoodStatsChecked ns p = some (withNeighborhoodStats ns p) := by
  by_cases h : countsOf ns = []
  · rw [withNeighborhoodStatsChecked, if_neg (by simp [h]),
      withNeighborhoodStats, if_neg (by simp [h])]
  · have hmax : maxCount (countsOf ns) ≠ 0 := by
      have := maxCount_pos (countsOf ns) h (countsOf_pos ns)
      omega
    rw [withNeighborhoodStatsChecked, if_pos h, maxValsChecked, if_neg h]
    dsimp only
    rw [weightsChecked_eq _ hmax, withNeighborhoodStats, if_pos h]

/-- The checked ideal-price block always succeeds. -/
theorem withIdealPriceChecked_eq (xs : List ℚ) (p : Preferences) :
    withIdealPriceChecked xs p = some (withIdealPrice xs p) := by
  by_cases h : xs = []
  · rw [withIdealPriceChecked, if_neg (by simp [h]), withIdealPrice,
      if_neg (by simp [h])]
  · have hlen : (xs.length : ℚ) ≠ 0 :=
      Nat.cast_ne_zero.mpr (List.length_pos.mpr h).ne'
    rw [withIdealPriceChecked, if_pos h, qdivChecked_of_ne _ _ hlen,
      withIdealPrice, if_pos h]

/-- The checked ideal-sqft block always succeeds. -/
theorem withIdealSqftChecked_eq (xs : List ℚ) (p : Preferences) :
    withIdealSqftChecked xs p = some (withIdealSqft xs p) := by
  by_cases h : xs = []
  · rw [withIdealSqftChecked, if_neg (by simp [h]), withIdealSqft,
      if_neg (by simp [h])]
  · have hlen : (xs.length : ℚ) ≠ 0 :=
      Nat.cast_ne_zero.mpr (List.length_pos.mpr h).ne'
    rw [withIdealSqftChecked, if_pos h, qdivChecked_of_ne _ _ hlen,
      withIdealSqft, if_pos h]

/-- The checked ideal-beds block always succeeds. -/
theorem withIdealBedsChecked_eq (xs : List ℚ) (p : Preferences) :
    withIdealBedsChecked xs p = some (withIdealBeds xs p) := by
  by_cases h : xs = []
  · rw [withIdealBedsChecked, if_neg (by simp [h]), withIdealBeds,
      if_neg (by simp [h])]
  · have hlen : (xs.length : ℚ) ≠ 0 :=
      Nat.cast_ne_zero.mpr (List.length_pos.mpr h).ne'
    rw [withIdealBedsChecked, if_pos h, qdivChecked_of_ne _ _ hlen,
      withIdealBeds, if_pos h]

/-- The checked ideal-baths block always succeeds. -/
theorem withIdealBathsChecked_eq (xs : List ℚ) (p : Preferences) :
    withIdealBathsChecked xs p = some (withIdealBaths xs p) := by
  by_cases h : xs = []
  · rw [withIdealBathsChecked, if_neg (by simp [h]), withIdealBaths,
      if_neg (by simp [h])]
  · have hlen : (xs.length : ℚ) ≠ 0 :=
      Nat.cast_ne_zero.mpr (List.length_pos.mpr h).ne'
    rw [withIdealBathsChecked, if_pos h, qdivChecked_of_ne _ _ hlen,
      withIdealBaths, if_pos h]

/-- The checked derivation always succeeds. -/
theorem update_preferences_checked_eq (nearby : ℚ → ℚ → ℚ → List String)
    (favorites : List (String × Listing)) :
    update_preferences_checked nearby favorites =
      some (update_preferences_from_favorites nearby favorites) := by
  rw [update_preferences_checked, update_preferences_from_favorites]
  by_cases h : favorites = []
  · rw [if_pos h, if_pos h]
  · rw [if_neg h, if_neg h, withNeighborhoodStatsChecked_eq,
      Option.some_bind, withIdealPriceChecked_eq, Option.some_bind,
      withIdealSqftChecked_eq, Option.some_bind, withIdealBedsChecked_eq,
      Option.some_bind, withIdealBathsChecked_eq, Option.map_some']
    rw [buildPrefs]

/-- C9: boost computation, relevance scoring and profile derivation
are total — every division and `max()` site of the source is reached
only under a guard making it safe — but feedback parsing is *not*: on
the input `"max $,"` the max-price regex captures `","`, the commas
are stripped, and `float("")` raises a `ValueError` (modelled by
`none`). -/
theorem C9_totality_and_parse_crash :
    (∀ (l : Listing) (p : Preferences),
      calculate_preference_boost_checked l p =
        some (calculate_preference_boost l p)) ∧
    (∀ (l : Listing) (c : Config) (p : Preferences),
      calculate_relevance_score_checked l c p =
        some (calculate_relevance_score l c p)) ∧
    (∀ (nearby : ℚ → ℚ → ℚ → List String)
        (favorites : List (String × Listing)),
      update_preferences_checked nearby favorites =
        some (update_preferences_from_favorites nearby favorites)) ∧
    parse_feedback ("max $,") = none := by
  refine ⟨boost_checked_eq, relevance_checked_eq, update_preferences_checked_eq, ?_⟩
  have h1 : searchPrice maxPriceKws (pyLower ("max $,")).toList =
      some (([','] : List Char), none) := by decide
  have h2 : pyFloatDigitsDot (([','] : List Char).filter (fun c => c ≠ ',')) =
      none := by decide
  rw [parse_feedback, extractPrice, h1]
  dsimp only
  rw [h2]

end HouseHunter
